import Mathlib

/-!
Verification of the easybuild easyblocks repository (four easyblocks:
`score_p.py`, `libsmm.py`, `paraver.py`, `tensorrt.py`).

Modelling conventions, used throughout:

* Versions (`self.version`, GCC versions, thresholds) are modelled as their
  parsed numeric component lists (`LooseVersion('8.0')` becomes `[8, 0]`);
  `LooseVersion` comparison on such versions is lexicographic list comparison,
  embedded as `versionLt` / `versionLe`.
* `get_software_root` results are modelled as an association list from software
  names to root paths; Python truthiness of the result (`if dep_root:`) is
  preserved, so an empty-string root counts as absent.
* Environment variables (`os.getenv`) are `Option String`, with `none` for an
  unset variable; Python renders `None` as the string `"None"` when it is
  `%s`-formatted, embedded as `pyStr`.
* `self.cfg.update('configopts', x)` (framework code, not under `src/`) is
  modelled as appending the option `x` to a list of configure options.
* Raising `EasyBuildError` is modelled as `Except.error` with a fixed message
  (the `%`-formatting of the message arguments is elided).
* Shell commands and file writes are recorded as actions, not executed.
-/

/-- Lexicographic comparison of parsed numeric versions; models Python's
`LooseVersion` `<` on dotted numeric version strings (which compares the
lists of integer components like Python list comparison). -/
def versionLt : List Nat → List Nat → Bool
  | [], [] => false
  | [], _ :: _ => true
  | _ :: _, [] => false
  | a :: as, b :: bs => a < b || (a == b && versionLt as bs)

/-- `LooseVersion` `>=`/`<=`: on a total order, `a <= b` iff `¬ b < a`. -/
def versionLe (a b : List Nat) : Bool := !(versionLt b a)

/-- Boolean prefix test on character lists (our own, to keep proofs local). -/
def pfxOf : List Char → List Char → Bool
  | [], _ => true
  | _ :: _, [] => false
  | a :: as, b :: bs => a == b && pfxOf as bs

/-- Boolean suffix test on character lists. -/
def sfxOf (s l : List Char) : Bool := pfxOf s.reverse l.reverse

/-- `s` ends with `pat` (models Python `str.endswith`). -/
def strEnds (s pat : String) : Bool := sfxOf pat.data s.data

/-- Models Python `' '.join(...)`. -/
def spaceJoin : List String → String
  | [] => ""
  | [s] => s
  | s :: t :: rest => s ++ " " ++ spaceJoin (t :: rest)

/-- Python `str(x)` for a value that may be `None`. -/
def pyStr : Option String → String
  | none => "None"
  | some s => s

/-- Python truthiness of an optional string (`None` and `''` are falsy). -/
def optTruthy : Option String → Bool
  | none => false
  | some s => !(s == "")

/-- Python `range(a, b)` over integers. -/
def pyRangeInt (a b : Int) : List Int :=
  (List.range (b - a).toNat).map (fun i => a + Int.ofNat i)

/-- Compiler families (the `toolchain.<FAM>` constants used by `comp_family()`);
`CLANG` and `FUJITSU` stand for families outside the easyblocks' dispatch tables. -/
inductive CompilerFamily
  | SYSTEM | GCC | IBMCOMP | INTELCOMP | NVHPC | PGI | CLANG | FUJITSU
deriving DecidableEq, Repr

/-- MPI families (the `toolchain.<FAM>` constants used by `mpi_family()`);
`FUJITSUMPI` stands for a family outside the dispatch table. -/
inductive MPIFamily
  | INTELMPI | OPENMPI | MPICH | MPICH2 | MVAPICH2 | FUJITSUMPI
deriving DecidableEq, Repr

/-- Toolchain families (`toolchain_family()`); only the comparison with
`toolchain.CRAYPE` matters to the code under verification. -/
inductive ToolchainFamily
  | CRAYPE | GCCFAM | INTELFAM | SYSTEMFAM
deriving DecidableEq, Repr

/-! ## Score-P (`src/easybuild/easyblocks/s/score_p.py`, class `EB_Score_minus_P`) -/

/-- The framework-provided inputs that `EB_Score_minus_P.configure_step` reads:
package name and version, toolchain/compiler/MPI families, the unpacked source
directory, the two `get_software_libdir` results used when building the `deps`
table, and the installed-software roots visible to `get_software_root`. -/
structure ScorePEnv where
  name : String
  version : List Nat
  tcFam : ToolchainFamily
  compFam : CompilerFamily
  mpiFam : Option MPIFamily
  startDir : String
  binutilsLibdir : String
  papiLibdir : String
  roots : List (String × String)
deriving DecidableEq, Repr

/-- Association-list lookup for installed software roots. -/
def lookupRoot : List (String × String) → String → Option String
  | [], _ => none
  | (n, r) :: rest, name => if n == name then some r else lookupRoot rest name

/-- `get_software_root(name)` combined with the Python truthiness check
(`if dep_root:`): an empty root counts as not available. -/
def getSoftwareRoot (env : ScorePEnv) (name : String) : Option String :=
  match lookupRoot env.roots name with
  | some r => if r == "" then none else some r
  | none => none

/-- The `yes_no_regex` substitution pairs of `configure_step` (score_p.py:58). -/
def yesNoRegex : List (String × String) :=
  [("\\*yes\\*\\|\\*no\\*", "yes,*|no,*|*,yes|*,no"),
   ("_lib\x7d\\$\x7bwith_", "_lib\x7d,$\x7bwith_")]

/-- The regex substitutions applied by `configure_step` (score_p.py:55-68):
for `8.0 <= version < 8.5`, `yes_no_regex` is applied to the three configure
scripts `build-backend`, `build-mpi`, `build-shmem`; otherwise nothing. -/
def scorePRegexSubs (env : ScorePEnv) : List (String × List (String × String)) :=
  if versionLe [8, 0] env.version && versionLt env.version [8, 5] then
    [(env.startDir ++ "/build-backend/configure", yesNoRegex),
     (env.startDir ++ "/build-mpi/configure", yesNoRegex),
     (env.startDir ++ "/build-shmem/configure", yesNoRegex)]
  else []

/-- The `nvhpc_since` table with its `.get(self.name, '0')` default (score_p.py:95-103). -/
def nvhpcSince (name : String) : List Nat :=
  if name == "Score-P" then [8, 0]
  else if name == "Scalasca" then [2, 6, 1]
  else if name == "OTF2" then [3, 0, 2]
  else if name == "CubeWriter" then [4, 8]
  else if name == "CubeLib" then [4, 8]
  else if name == "CubeGUI" then [4, 8]
  else [0]

/-- The value `comp_opts[toolchain.NVHPC]` ends up with after the version check
(score_p.py:103-104): `'pgi'` for versions below the package's `nvhpc_since`
threshold, `'nvhpc'` otherwise. -/
def scorePNvhpcValue (env : ScorePEnv) : String :=
  if versionLt env.version (nvhpcSince env.name) then "pgi" else "nvhpc"

/-- The `comp_opts` dispatch table (score_p.py:86-94), parametrised by the
effective NVHPC entry; families outside the table map to `none`. -/
def compOptsTable (nvhpcVal : String) : CompilerFamily → Option String
  | .SYSTEM => some "gcc"
  | .GCC => some "gcc"
  | .IBMCOMP => some "ibm"
  | .INTELCOMP => some "intel"
  | .NVHPC => some nvhpcVal
  | .PGI => some "pgi"
  | .CLANG => none
  | .FUJITSU => none

/-- The `mpi_opts` dispatch table (score_p.py:130-136). -/
def mpiOptsTable : MPIFamily → Option String
  | .INTELMPI => some "intel2"
  | .OPENMPI => some "openmpi"
  | .MPICH => some "mpich3"
  | .MPICH2 => some "mpich2"
  | .MVAPICH2 => some "mpich3"
  | .FUJITSUMPI => none

/-- The MPI part of `configure_step` (score_p.py:137-143): no option when
`mpi_family()` is `None`, `--with-mpi=<mapped>` for a family in `mpi_opts`,
an `EasyBuildError` otherwise. -/
def scorePMpiOptList (env : ScorePEnv) : Except String (List String) :=
  match env.mpiFam with
  | none => .ok []
  | some mf =>
    match mpiOptsTable mf with
    | none => .error "MPI family not supported yet"
    | some mv => .ok ["--with-mpi=" ++ mv]

/-- The compiler-suite and MPI options added by `configure_step`
(score_p.py:83-143): nothing on a `CRAYPE` toolchain; otherwise the
`--with-nocross-compiler-suite` option (or an `EasyBuildError` for a compiler
family outside `comp_opts`) followed by the MPI option handling. -/
def scorePCompMpiOpts (env : ScorePEnv) : Except String (List String) :=
  if env.tcFam == .CRAYPE then .ok []
  else
    match compOptsTable (scorePNvhpcValue env) env.compFam with
    | none => .error "Compiler family not supported yet"
    | some v =>
      match scorePMpiOptList env with
      | .error e => .error e
      | .ok ms => .ok (("--with-nocross-compiler-suite=" ++ v) :: ms)

/-- Errors of Python `%`-formatting a single string argument: `TypeError`
(no conversion specifier consumed, or too many) and `ValueError` (format
string ends in a lone `%`). Only `TypeError` is caught by the `deps` loop. -/
inductive FmtErr | typeError | valueError
deriving DecidableEq, Repr

/-- Python `fmt % arg` for one string argument `a`, over the characters of
`fmt`: `%s` substitutes `a` (exactly once), `%%` is a literal percent, any
other `%<c>` raises `TypeError` for a string argument, a trailing `%` raises
`ValueError`, and a format with no consumed specifier raises `TypeError`
("not all arguments converted"). -/
def pyFmtS : List Char → List Char → Bool → Except FmtErr (List Char)
  | [], _, used => if used then .ok [] else .error .typeError
  | c :: cs, a, used =>
    if c == '%' then
      match cs with
      | [] => .error .valueError
      | d :: ds =>
        if d == 's' then
          if used then .error .typeError
          else
            match pyFmtS ds a true with
            | .ok r => .ok (a ++ r)
            | .error e => .error e
        else if d == '%' then
          match pyFmtS ds a used with
          | .ok r => .ok ('%' :: r)
          | .error e => .error e
        else .error .typeError
    else
      match pyFmtS cs a used with
      | .ok r => .ok (c :: r)
      | .error e => .error e

/-- One iteration body of the `deps` loop (score_p.py:170-175): try
`dep_opt % dep_root`; a `TypeError` is caught and the option kept verbatim;
a `ValueError` would propagate. -/
def depOptApply (root opt : String) : Except FmtErr String :=
  match pyFmtS opt.data root.data false with
  | .ok r => .ok (String.mk r)
  | .error .typeError => .ok opt
  | .error .valueError => .error .valueError

/-- The `deps` table (score_p.py:150-166), in dict insertion order; the
`get_software_libdir` results are already `%`-substituted into the `binutils`
and `PAPI` entries, exactly as in the source. -/
def scorePDeps (env : ScorePEnv) : List (String × List String) :=
  [("binutils", ["--with-libbfd-include=%s/include", "--with-libbfd-lib=%s/" ++ env.binutilsLibdir]),
   ("libunwind", ["--with-libunwind=%s"]),
   ("Cube", ["--with-cube=%s/bin"]),
   ("CubeLib", ["--with-cubelib=%s/bin"]),
   ("CubeWriter", ["--with-cubew=%s/bin"]),
   ("CUDA", ["--enable-cuda", "--with-libcudart=%s"]),
   ("OTF2", ["--with-otf2=%s/bin"]),
   ("OPARI2", ["--with-opari2=%s/bin"]),
   ("PAPI", ["--with-papi-header=%s/include", "--with-papi-lib=%s/" ++ env.papiLibdir]),
   ("PDT", ["--with-pdt=%s/bin"]),
   ("Qt", ["--with-qt=%s"]),
   ("SIONlib", ["--with-sionlib=%s/bin"])]

/-- Apply the loop body to each option string of one dependency. -/
def applyDepOpts (root : String) : List String → Except FmtErr (List String)
  | [] => .ok []
  | o :: os =>
    match depOptApply root o with
    | .error e => .error e
    | .ok r =>
      match applyDepOpts root os with
      | .error e => .error e
      | .ok rs => .ok (r :: rs)

/-- Options contributed by one dependency of the `deps` table: none when its
root is not available, otherwise the loop body applied to each option. -/
def processDep (env : ScorePEnv) (d : String × List String) : Except FmtErr (List String) :=
  match getSoftwareRoot env d.1 with
  | none => .ok []
  | some root => applyDepOpts root d.2

/-- The whole `deps` loop (score_p.py:167-175), dependency by dependency. -/
def processDeps (env : ScorePEnv) : List (String × List String) → Except FmtErr (List String)
  | [] => .ok []
  | d :: ds =>
    match processDep env d with
    | .error e => .error e
    | .ok r =>
      match processDeps env ds with
      | .error e => .error e
      | .ok rs => .ok (r ++ rs)

/-- The configure options produced by the `deps` loop of `configure_step`. -/
def scorePDepOpts (env : ScorePEnv) : Except FmtErr (List String) :=
  processDeps env (scorePDeps env)

/-- Observable outcome of `EB_Score_minus_P.configure_step`: the regex
substitutions applied, the environment variables unset, and the configure
options appended (in order). -/
structure ScorePConf where
  regexSubs : List (String × List (String × String))
  unsetVars : List String
  configopts : List String
deriving DecidableEq, Repr

/-- `EB_Score_minus_P.configure_step` (score_p.py:52-177): regex fixes,
`unset_env_vars(['CPPFLAGS', 'LDFLAGS', 'LIBS'])`, compiler/MPI options,
then the dependency options. -/
def scorePConfigureStep (env : ScorePEnv) : Except String ScorePConf :=
  match scorePCompMpiOpts env with
  | .error e => .error e
  | .ok cmOpts =>
    match scorePDepOpts env with
    | .error _ => .error "ValueError: incomplete format"
    | .ok dOpts =>
      .ok { regexSubs := scorePRegexSubs env,
            unsetVars := ["CPPFLAGS", "LDFLAGS", "LIBS"],
            configopts := cmOpts ++ dOpts }

/-- No `'%'` character occurs in `s` (sanity condition on the
`get_software_libdir` results spliced into the `deps` table). -/
def noPercent (s : String) : Bool := s.data.all (fun c => !(c == '%'))

/-- Options contributed by one dependency, written out: nothing when the root
is absent, otherwise the per-root option list. -/
def depBlock (env : ScorePEnv) (name : String) (f : String → List String) : List String :=
  match getSoftwareRoot env name with
  | none => []
  | some r => f r

/-- Expected `binutils` contribution: both options with the root substituted. -/
def depOptsBinutils (env : ScorePEnv) : List String :=
  depBlock env "binutils" (fun r => ["--with-libbfd-include=" ++ (r ++ "/include"),
                                     "--with-libbfd-lib=" ++ (r ++ ("/" ++ env.binutilsLibdir))])

/-- Expected `libunwind` contribution. -/
def depOptsLibunwind (env : ScorePEnv) : List String :=
  depBlock env "libunwind" (fun r => ["--with-libunwind=" ++ (r ++ "")])

/-- Expected `Cube` contribution. -/
def depOptsCube (env : ScorePEnv) : List String :=
  depBlock env "Cube" (fun r => ["--with-cube=" ++ (r ++ "/bin")])

/-- Expected `CubeLib` contribution. -/
def depOptsCubeLib (env : ScorePEnv) : List String :=
  depBlock env "CubeLib" (fun r => ["--with-cubelib=" ++ (r ++ "/bin")])

/-- Expected `CubeWriter` contribution. -/
def depOptsCubeWriter (env : ScorePEnv) : List String :=
  depBlock env "CubeWriter" (fun r => ["--with-cubew=" ++ (r ++ "/bin")])

/-- Expected `CUDA` contribution: `--enable-cuda` has no `%s`, so the caught
`TypeError` leaves it verbatim; the second option is substituted. -/
def depOptsCUDA (env : ScorePEnv) : List String :=
  depBlock env "CUDA" (fun r => ["--enable-cuda", "--with-libcudart=" ++ (r ++ "")])

/-- Expected `OTF2` contribution. -/
def depOptsOTF2 (env : ScorePEnv) : List String :=
  depBlock env "OTF2" (fun r => ["--with-otf2=" ++ (r ++ "/bin")])

/-- Expected `OPARI2` contribution. -/
def depOptsOPARI2 (env : ScorePEnv) : List String :=
  depBlock env "OPARI2" (fun r => ["--with-opari2=" ++ (r ++ "/bin")])

/-- Expected `PAPI` contribution. -/
def depOptsPAPI (env : ScorePEnv) : List String :=
  depBlock env "PAPI" (fun r => ["--with-papi-header=" ++ (r ++ "/include"),
                                 "--with-papi-lib=" ++ (r ++ ("/" ++ env.papiLibdir))])

/-- Expected `PDT` contribution. -/
def depOptsPDT (env : ScorePEnv) : List String :=
  depBlock env "PDT" (fun r => ["--with-pdt=" ++ (r ++ "/bin")])

/-- Expected `Qt` contribution. -/
def depOptsQt (env : ScorePEnv) : List String :=
  depBlock env "Qt" (fun r => ["--with-qt=" ++ (r ++ "")])

/-- Expected `SIONlib` contribution. -/
def depOptsSIONlib (env : ScorePEnv) : List String :=
  depBlock env "SIONlib" (fun r => ["--with-sionlib=" ++ (r ++ "/bin")])

/-- The dependency options the `deps` loop is expected to produce: each
available dependency contributes its options with the root substituted for
`%s` where the option has one, and verbatim (`--enable-cuda`) where it has
none; absent dependencies contribute nothing. -/
def scorePExpectedDepOpts (env : ScorePEnv) : List String :=
  depOptsBinutils env ++ (depOptsLibunwind env ++ (depOptsCube env ++ (depOptsCubeLib env ++
    (depOptsCubeWriter env ++ (depOptsCUDA env ++ (depOptsOTF2 env ++ (depOptsOPARI2 env ++
      (depOptsPAPI env ++ (depOptsPDT env ++ (depOptsQt env ++ (depOptsSIONlib env ++ [])))))))))))

/-- Number of options in `opts` that start with `pat`. -/
def countPfx (pat : String) (opts : List String) : Nat :=
  opts.countP (fun o => pfxOf pat.data o.data)

/-! ### Helper lemmas on the Python `%s` formatter and on prefixes -/

theorem pyFmtS_clean (cs : List Char) (h : cs.all (fun c => !(c == '%')) = true)
    (rest a : List Char) (used : Bool) :
    pyFmtS (cs ++ rest) a used =
      match pyFmtS rest a used with
      | .ok r => .ok (cs ++ r)
      | .error e => .error e := by
  induction cs with
  | nil =>
    simp only [List.nil_append]
    cases pyFmtS rest a used <;> simp
  | cons c cs ih =>
    simp only [List.all_cons, Bool.and_eq_true] at h
    obtain ⟨h1, h2⟩ := h
    have hc : (c == '%') = false := by
      cases hcc : (c == '%')
      · rfl
      · rw [hcc] at h1; simp at h1
    rw [List.cons_append]
    have ih2 := ih h2
    cases hry : pyFmtS rest a used with
    | ok r =>
      rw [hry] at ih2
      have ih3 : pyFmtS (cs ++ rest) a used = .ok (cs ++ r) := ih2
      rw [pyFmtS.eq_def]
      simp only [hc, Bool.false_eq_true, if_false, ih3, List.cons_append]
    | error e =>
      rw [hry] at ih2
      have ih3 : pyFmtS (cs ++ rest) a used = .error e := ih2
      rw [pyFmtS.eq_def]
      simp only [hc, Bool.false_eq_true, if_false, ih3]

theorem pyFmtS_spec_here (rest a : List Char) :
    pyFmtS ('%' :: 's' :: rest) a false =
      match pyFmtS rest a true with
      | .ok r => .ok (a ++ r)
      | .error e => .error e := by
  simp [pyFmtS]

theorem pyFmtS_clean_done (cs : List Char) (h : cs.all (fun c => !(c == '%')) = true)
    (a : List Char) : pyFmtS cs a true = .ok cs := by
  have := pyFmtS_clean cs h [] a true
  simpa [pyFmtS] using this

theorem pyFmtS_clean_unused (cs : List Char) (h : cs.all (fun c => !(c == '%')) = true)
    (a : List Char) : pyFmtS cs a false = .error .typeError := by
  have := pyFmtS_clean cs h [] a false
  simpa [pyFmtS] using this

theorem string_mk_data (s : String) : String.mk s.data = s := rfl

theorem noPercent_append (a b : String) :
    noPercent (a ++ b) = (noPercent a && noPercent b) := by
  simp [noPercent, String.data_append, List.all_append]

theorem depOptApply_subst (pre suf root : String)
    (hp : noPercent pre = true) (hs : noPercent suf = true) :
    depOptApply root (pre ++ "%s" ++ suf) = .ok (pre ++ (root ++ suf)) := by
  unfold depOptApply
  have hdata : (pre ++ "%s" ++ suf).data = pre.data ++ ('%' :: 's' :: suf.data) := by
    simp [String.data_append]
  rw [hdata, pyFmtS_clean pre.data hp _ _ false, pyFmtS_spec_here,
    pyFmtS_clean_done suf.data hs]
  show Except.ok (String.mk (pre.data ++ (root.data ++ suf.data))) = _
  have : String.mk (pre.data ++ (root.data ++ suf.data)) = pre ++ (root ++ suf) := by
    apply String.ext
    simp [String.data_append]
  rw [this]

theorem depOptApply_verbatim (root opt : String) (h : noPercent opt = true) :
    depOptApply root opt = .ok opt := by
  unfold depOptApply
  rw [pyFmtS_clean_unused opt.data h]

/-- A position at which two character lists are both defined and differ
(a decidable sufficient condition for non-prefixhood even after appending). -/
def clash : List Char → List Char → Bool
  | pc :: ps, ac :: as2 => !(pc == ac) || clash ps as2
  | _, _ => false

theorem pfxOf_append_of_clash :
    ∀ (p a : List Char), clash p a = true → ∀ t, pfxOf p (a ++ t) = false := by
  intro p
  induction p with
  | nil => intro a h t; cases a <;> simp [clash] at h
  | cons pc ps ih =>
    intro a h t
    cases a with
    | nil => simp [clash] at h
    | cons ac as2 =>
      simp only [clash, Bool.or_eq_true, Bool.not_eq_eq_eq_not, Bool.not_true] at h
      rw [List.cons_append]
      show (pc == ac && pfxOf ps (as2 ++ t)) = false
      rcases h with h | h
      · simp [h]
      · rw [ih as2 h t]
        simp

theorem applyDepOpts_nil (r : String) : applyDepOpts r [] = .ok [] := rfl

theorem applyDepOpts_cons (r o : String) (os : List String) (x : String) (xs : List String)
    (h1 : depOptApply r o = .ok x) (h2 : applyDepOpts r os = .ok xs) :
    applyDepOpts r (o :: os) = .ok (x :: xs) := by
  unfold applyDepOpts
  rw [h1, h2]

theorem processDeps_nil (env : ScorePEnv) : processDeps env [] = .ok [] := rfl

theorem processDeps_cons (env : ScorePEnv) (d : String × List String)
    (ds : List (String × List String)) (r rs : List String)
    (h1 : processDep env d = .ok r) (h2 : processDeps env ds = .ok rs) :
    processDeps env (d :: ds) = .ok (r ++ rs) := by
  unfold processDeps
  rw [h1, h2]

theorem processDep_block (env : ScorePEnv) (name : String) (opts : List String)
    (f : String → List String) (h : ∀ r, applyDepOpts r opts = .ok (f r)) :
    processDep env (name, opts) = .ok (depBlock env name f) := by
  unfold processDep depBlock
  cases getSoftwareRoot env name with
  | none => rfl
  | some r => exact h r

theorem depOptApply_subst_lit (r pre suf lit : String) (hlit : lit = pre ++ "%s" ++ suf)
    (hp : noPercent pre = true) (hs : noPercent suf = true) :
    depOptApply r lit = .ok (pre ++ (r ++ suf)) := by
  rw [hlit]; exact depOptApply_subst pre suf r hp hs

theorem processDep_binutils (env : ScorePEnv) (hb : noPercent env.binutilsLibdir = true) :
    processDep env ("binutils",
      ["--with-libbfd-include=%s/include", "--with-libbfd-lib=%s/" ++ env.binutilsLibdir]) =
    .ok (depOptsBinutils env) := by
  refine processDep_block env _ _ _ (fun r => ?_)
  refine applyDepOpts_cons _ _ _ _ _ ?_ (applyDepOpts_cons _ _ _ _ _ ?_ (applyDepOpts_nil r))
  · exact depOptApply_subst_lit r "--with-libbfd-include=" "/include" _ rfl (by decide) (by decide)
  · refine depOptApply_subst_lit r "--with-libbfd-lib=" ("/" ++ env.binutilsLibdir) _ ?_ (by decide) ?_
    · apply String.ext
      simp only [String.data_append, List.append_assoc]
      rfl
    · rw [noPercent_append, hb]
      decide

theorem processDep_libunwind (env : ScorePEnv) :
    processDep env ("libunwind", ["--with-libunwind=%s"]) = .ok (depOptsLibunwind env) := by
  refine processDep_block env _ _ _ (fun r => ?_)
  refine applyDepOpts_cons _ _ _ _ _ ?_ (applyDepOpts_nil r)
  exact depOptApply_subst_lit r "--with-libunwind=" "" _ rfl (by decide) (by decide)

theorem processDep_Cube (env : ScorePEnv) :
    processDep env ("Cube", ["--with-cube=%s/bin"]) = .ok (depOptsCube env) := by
  refine processDep_block env _ _ _ (fun r => ?_)
  refine applyDepOpts_cons _ _ _ _ _ ?_ (applyDepOpts_nil r)
  exact depOptApply_subst_lit r "--with-cube=" "/bin" _ rfl (by decide) (by decide)

theorem processDep_CubeLib (env : ScorePEnv) :
    processDep env ("CubeLib", ["--with-cubelib=%s/bin"]) = .ok (depOptsCubeLib env) := by
  refine processDep_block env _ _ _ (fun r => ?_)
  refine applyDepOpts_cons _ _ _ _ _ ?_ (applyDepOpts_nil r)
  exact depOptApply_subst_lit r "--with-cubelib=" "/bin" _ rfl (by decide) (by decide)

theorem processDep_CubeWriter (env : ScorePEnv) :
    processDep env ("CubeWriter", ["--with-cubew=%s/bin"]) = .ok (depOptsCubeWriter env) := by
  refine processDep_block env _ _ _ (fun r => ?_)
  refine applyDepOpts_cons _ _ _ _ _ ?_ (applyDepOpts_nil r)
  exact depOptApply_subst_lit r "--with-cubew=" "/bin" _ rfl (by decide) (by decide)

theorem processDep_CUDA (env : ScorePEnv) :
    processDep env ("CUDA", ["--enable-cuda", "--with-libcudart=%s"]) = .ok (depOptsCUDA env) := by
  refine processDep_block env _ _ _ (fun r => ?_)
  refine applyDepOpts_cons _ _ _ _ _ ?_ (applyDepOpts_cons _ _ _ _ _ ?_ (applyDepOpts_nil r))
  · exact depOptApply_verbatim r "--enable-cuda" (by decide)
  · exact depOptApply_subst_lit r "--with-libcudart=" "" _ rfl (by decide) (by decide)

theorem processDep_OTF2 (env : ScorePEnv) :
    processDep env ("OTF2", ["--with-otf2=%s/bin"]) = .ok (depOptsOTF2 env) := by
  refine processDep_block env _ _ _ (fun r => ?_)
  refine applyDepOpts_cons _ _ _ _ _ ?_ (applyDepOpts_nil r)
  exact depOptApply_subst_lit r "--with-otf2=" "/bin" _ rfl (by decide) (by decide)

theorem processDep_OPARI2 (env : ScorePEnv) :
    processDep env ("OPARI2", ["--with-opari2=%s/bin"]) = .ok (depOptsOPARI2 env) := by
  refine processDep_block env _ _ _ (fun r => ?_)
  refine applyDepOpts_cons _ _ _ _ _ ?_ (applyDepOpts_nil r)
  exact depOptApply_subst_lit r "--with-opari2=" "/bin" _ rfl (by decide) (by decide)

theorem processDep_PAPI (env : ScorePEnv) (hp : noPercent env.papiLibdir = true) :
    processDep env ("PAPI",
      ["--with-papi-header=%s/include", "--with-papi-lib=%s/" ++ env.papiLibdir]) =
    .ok (depOptsPAPI env) := by
  refine processDep_block env _ _ _ (fun r => ?_)
  refine applyDepOpts_cons _ _ _ _ _ ?_ (applyDepOpts_cons _ _ _ _ _ ?_ (applyDepOpts_nil r))
  · exact depOptApply_subst_lit r "--with-papi-header=" "/include" _ rfl (by decide) (by decide)
  · refine depOptApply_subst_lit r "--with-papi-lib=" ("/" ++ env.papiLibdir) _ ?_ (by decide) ?_
    · apply String.ext
      simp only [String.data_append, List.append_assoc]
      rfl
    · rw [noPercent_append, hp]
      decide

theorem processDep_PDT (env : ScorePEnv) :
    processDep env ("PDT", ["--with-pdt=%s/bin"]) = .ok (depOptsPDT env) := by
  refine processDep_block env _ _ _ (fun r => ?_)
  refine applyDepOpts_cons _ _ _ _ _ ?_ (applyDepOpts_nil r)
  exact depOptApply_subst_lit r "--with-pdt=" "/bin" _ rfl (by decide) (by decide)

theorem processDep_Qt (env : ScorePEnv) :
    processDep env ("Qt", ["--with-qt=%s"]) = .ok (depOptsQt env) := by
  refine processDep_block env _ _ _ (fun r => ?_)
  refine applyDepOpts_cons _ _ _ _ _ ?_ (applyDepOpts_nil r)
  exact depOptApply_subst_lit r "--with-qt=" "" _ rfl (by decide) (by decide)

theorem processDep_SIONlib (env : ScorePEnv) :
    processDep env ("SIONlib", ["--with-sionlib=%s/bin"]) = .ok (depOptsSIONlib env) := by
  refine processDep_block env _ _ _ (fun r => ?_)
  refine applyDepOpts_cons _ _ _ _ _ ?_ (applyDepOpts_nil r)
  exact depOptApply_subst_lit r "--with-sionlib=" "/bin" _ rfl (by decide) (by decide)

/-- The whole `deps` loop never raises and produces exactly the expected
dependency options (the key fact behind claim C10 and the configure-option
claims). -/
theorem scorePDepOpts_expected (env : ScorePEnv)
    (hb : noPercent env.binutilsLibdir = true) (hp : noPercent env.papiLibdir = true) :
    scorePDepOpts env = .ok (scorePExpectedDepOpts env) := by
  show processDeps env (scorePDeps env) = _
  unfold scorePDeps scorePExpectedDepOpts
  exact processDeps_cons _ _ _ _ _ (processDep_binutils env hb)
    (processDeps_cons _ _ _ _ _ (processDep_libunwind env)
      (processDeps_cons _ _ _ _ _ (processDep_Cube env)
        (processDeps_cons _ _ _ _ _ (processDep_CubeLib env)
          (processDeps_cons _ _ _ _ _ (processDep_CubeWriter env)
            (processDeps_cons _ _ _ _ _ (processDep_CUDA env)
              (processDeps_cons _ _ _ _ _ (processDep_OTF2 env)
                (processDeps_cons _ _ _ _ _ (processDep_OPARI2 env)
                  (processDeps_cons _ _ _ _ _ (processDep_PAPI env hp)
                    (processDeps_cons _ _ _ _ _ (processDep_PDT env)
                      (processDeps_cons _ _ _ _ _ (processDep_Qt env)
                        (processDeps_cons _ _ _ _ _ (processDep_SIONlib env)
                          (processDeps_nil env))))))))))))

theorem pfxOf_append_self (p t : List Char) : pfxOf p (p ++ t) = true := by
  induction p with
  | nil => rfl
  | cons c cs ih => simp [pfxOf, ih]

theorem pfx_concat_false (pat pre t : String) (h : clash pat.data pre.data = true) :
    pfxOf pat.data (pre ++ t).data = false := by
  rw [String.data_append]
  exact pfxOf_append_of_clash _ _ h _

theorem countPfx_append (pat : String) (a b : List String) :
    countPfx pat (a ++ b) = countPfx pat a + countPfx pat b := by
  unfold countPfx
  exact List.countP_append _ _ _

theorem countPfx_depOptsBinutils (pat : String) (env : ScorePEnv)
    (h1 : clash pat.data "--with-libbfd-include=".data = true)
    (h2 : clash pat.data "--with-libbfd-lib=".data = true) :
    countPfx pat (depOptsBinutils env) = 0 := by
  unfold countPfx depOptsBinutils depBlock
  cases getSoftwareRoot env "binutils" with
  | none => rfl
  | some r =>
    simp only [List.countP_cons, List.countP_nil]
    rw [pfx_concat_false pat "--with-libbfd-include=" (r ++ "/include") h1,
      pfx_concat_false pat "--with-libbfd-lib=" (r ++ ("/" ++ env.binutilsLibdir)) h2]
    simp

theorem countPfx_depOptsLibunwind (pat : String) (env : ScorePEnv)
    (h : clash pat.data "--with-libunwind=".data = true) :
    countPfx pat (depOptsLibunwind env) = 0 := by
  unfold countPfx depOptsLibunwind depBlock
  cases getSoftwareRoot env "libunwind" with
  | none => rfl
  | some r =>
    simp only [List.countP_cons, List.countP_nil]
    rw [pfx_concat_false pat "--with-libunwind=" (r ++ "") h]
    simp

theorem countPfx_depOptsCube (pat : String) (env : ScorePEnv)
    (h : clash pat.data "--with-cube=".data = true) :
    countPfx pat (depOptsCube env) = 0 := by
  unfold countPfx depOptsCube depBlock
  cases getSoftwareRoot env "Cube" with
  | none => rfl
  | some r =>
    simp only [List.countP_cons, List.countP_nil]
    rw [pfx_concat_false pat "--with-cube=" (r ++ "/bin") h]
    simp

theorem countPfx_depOptsCubeLib (pat : String) (env : ScorePEnv)
    (h : clash pat.data "--with-cubelib=".data = true) :
    countPfx pat (depOptsCubeLib env) = 0 := by
  unfold countPfx depOptsCubeLib depBlock
  cases getSoftwareRoot env "CubeLib" with
  | none => rfl
  | some r =>
    simp only [List.countP_cons, List.countP_nil]
    rw [pfx_concat_false pat "--with-cubelib=" (r ++ "/bin") h]
    simp

theorem countPfx_depOptsCubeWriter (pat : String) (env : ScorePEnv)
    (h : clash pat.data "--with-cubew=".data = true) :
    countPfx pat (depOptsCubeWriter env) = 0 := by
  unfold countPfx depOptsCubeWriter depBlock
  cases getSoftwareRoot env "CubeWriter" with
  | none => rfl
  | some r =>
    simp only [List.countP_cons, List.countP_nil]
    rw [pfx_concat_false pat "--with-cubew=" (r ++ "/bin") h]
    simp

theorem countPfx_depOptsCUDA (pat : String) (env : ScorePEnv)
    (h1 : pfxOf pat.data "--enable-cuda".data = false)
    (h2 : clash pat.data "--with-libcudart=".data = true) :
    countPfx pat (depOptsCUDA env) = 0 := by
  unfold countPfx depOptsCUDA depBlock
  cases getSoftwareRoot env "CUDA" with
  | none => rfl
  | some r =>
    simp only [List.countP_cons, List.countP_nil]
    rw [h1, pfx_concat_false pat "--with-libcudart=" (r ++ "") h2]
    simp

theorem countPfx_depOptsOTF2 (pat : String) (env : ScorePEnv)
    (h : clash pat.data "--with-otf2=".data = true) :
    countPfx pat (depOptsOTF2 env) = 0 := by
  unfold countPfx depOptsOTF2 depBlock
  cases getSoftwareRoot env "OTF2" with
  | none => rfl
  | some r =>
    simp only [List.countP_cons, List.countP_nil]
    rw [pfx_concat_false pat "--with-otf2=" (r ++ "/bin") h]
    simp

theorem countPfx_depOptsOPARI2 (pat : String) (env : ScorePEnv)
    (h : clash pat.data "--with-opari2=".data = true) :
    countPfx pat (depOptsOPARI2 env) = 0 := by
  unfold countPfx depOptsOPARI2 depBlock
  cases getSoftwareRoot env "OPARI2" with
  | none => rfl
  | some r =>
    simp only [List.countP_cons, List.countP_nil]
    rw [pfx_concat_false pat "--with-opari2=" (r ++ "/bin") h]
    simp

theorem countPfx_depOptsPAPI (pat : String) (env : ScorePEnv)
    (h1 : clash pat.data "--with-papi-header=".data = true)
    (h2 : clash pat.data "--with-papi-lib=".data = true) :
    countPfx pat (depOptsPAPI env) = 0 := by
  unfold countPfx depOptsPAPI depBlock
  cases getSoftwareRoot env "PAPI" with
  | none => rfl
  | some r =>
    simp only [List.countP_cons, List.countP_nil]
    rw [pfx_concat_false pat "--with-papi-header=" (r ++ "/include") h1,
      pfx_concat_false pat "--with-papi-lib=" (r ++ ("/" ++ env.papiLibdir)) h2]
    simp

theorem countPfx_depOptsPDT (pat : String) (env : ScorePEnv)
    (h : clash pat.data "--with-pdt=".data = true) :
    countPfx pat (depOptsPDT env) = 0 := by
  unfold countPfx depOptsPDT depBlock
  cases getSoftwareRoot env "PDT" with
  | none => rfl
  | some r =>
    simp only [List.countP_cons, List.countP_nil]
    rw [pfx_concat_false pat "--with-pdt=" (r ++ "/bin") h]
    simp

theorem countPfx_depOptsQt (pat : String) (env : ScorePEnv)
    (h : clash pat.data "--with-qt=".data = true) :
    countPfx pat (depOptsQt env) = 0 := by
  unfold countPfx depOptsQt depBlock
  cases getSoftwareRoot env "Qt" with
  | none => rfl
  | some r =>
    simp only [List.countP_cons, List.countP_nil]
    rw [pfx_concat_false pat "--with-qt=" (r ++ "") h]
    simp

theorem countPfx_depOptsSIONlib (pat : String) (env : ScorePEnv)
    (h : clash pat.data "--with-sionlib=".data = true) :
    countPfx pat (depOptsSIONlib env) = 0 := by
  unfold countPfx depOptsSIONlib depBlock
  cases getSoftwareRoot env "SIONlib" with
  | none => rfl
  | some r =>
    simp only [List.countP_cons, List.countP_nil]
    rw [pfx_concat_false pat "--with-sionlib=" (r ++ "/bin") h]
    simp

/-- None of the dependency options ever begins with the compiler-suite or MPI
option prefixes (the hypotheses are discharged by computation at each use). -/
theorem countPfx_expectedDeps_zero (pat : String) (env : ScorePEnv)
    (h1 : clash pat.data "--with-libbfd-include=".data = true)
    (h2 : clash pat.data "--with-libbfd-lib=".data = true)
    (h3 : clash pat.data "--with-libunwind=".data = true)
    (h4 : clash pat.data "--with-cube=".data = true)
    (h5 : clash pat.data "--with-cubelib=".data = true)
    (h6 : clash pat.data "--with-cubew=".data = true)
    (h7 : pfxOf pat.data "--enable-cuda".data = false)
    (h8 : clash pat.data "--with-libcudart=".data = true)
    (h9 : clash pat.data "--with-otf2=".data = true)
    (h10 : clash pat.data "--with-opari2=".data = true)
    (h11 : clash pat.data "--with-papi-header=".data = true)
    (h12 : clash pat.data "--with-papi-lib=".data = true)
    (h13 : clash pat.data "--with-pdt=".data = true)
    (h14 : clash pat.data "--with-qt=".data = true)
    (h15 : clash pat.data "--with-sionlib=".data = true) :
    countPfx pat (scorePExpectedDepOpts env) = 0 := by
  unfold scorePExpectedDepOpts
  simp only [countPfx_append]
  rw [countPfx_depOptsBinutils pat env h1 h2, countPfx_depOptsLibunwind pat env h3,
    countPfx_depOptsCube pat env h4, countPfx_depOptsCubeLib pat env h5,
    countPfx_depOptsCubeWriter pat env h6, countPfx_depOptsCUDA pat env h7 h8,
    countPfx_depOptsOTF2 pat env h9, countPfx_depOptsOPARI2 pat env h10,
    countPfx_depOptsPAPI pat env h11 h12, countPfx_depOptsPDT pat env h13,
    countPfx_depOptsQt pat env h14, countPfx_depOptsSIONlib pat env h15]
  simp [countPfx]

theorem pfx_self_concat (pat t : String) : pfxOf pat.data (pat ++ t).data = true := by
  rw [String.data_append]
  exact pfxOf_append_self _ _

theorem countPfx_deps_nocross (env : ScorePEnv) :
    countPfx "--with-nocross-compiler-suite=" (scorePExpectedDepOpts env) = 0 :=
  countPfx_expectedDeps_zero _ env (by decide) (by decide) (by decide) (by decide) (by decide)
    (by decide) (by decide) (by decide) (by decide) (by decide) (by decide) (by decide)
    (by decide) (by decide) (by decide)

theorem countPfx_deps_mpi (env : ScorePEnv) :
    countPfx "--with-mpi=" (scorePExpectedDepOpts env) = 0 :=
  countPfx_expectedDeps_zero _ env (by decide) (by decide) (by decide) (by decide) (by decide)
    (by decide) (by decide) (by decide) (by decide) (by decide) (by decide) (by decide)
    (by decide) (by decide) (by decide)

theorem scorePCompMpiOpts_cray (env : ScorePEnv) (h : env.tcFam = .CRAYPE) :
    scorePCompMpiOpts env = .ok [] := by
  unfold scorePCompMpiOpts
  rw [h]
  rfl

theorem scorePCompMpiOpts_compErr (env : ScorePEnv) (htc : env.tcFam ≠ .CRAYPE)
    (hv : compOptsTable (scorePNvhpcValue env) env.compFam = none) :
    scorePCompMpiOpts env = .error "Compiler family not supported yet" := by
  unfold scorePCompMpiOpts
  rw [show (env.tcFam == ToolchainFamily.CRAYPE) = false from beq_eq_false_iff_ne.mpr htc]
  simp only [Bool.false_eq_true, if_false]
  rw [hv]

theorem scorePCompMpiOpts_some (env : ScorePEnv) (htc : env.tcFam ≠ .CRAYPE) (v : String)
    (hv : compOptsTable (scorePNvhpcValue env) env.compFam = some v) (ms : List String)
    (hm : scorePMpiOptList env = .ok ms) :
    scorePCompMpiOpts env = .ok (("--with-nocross-compiler-suite=" ++ v) :: ms) := by
  unfold scorePCompMpiOpts
  rw [show (env.tcFam == ToolchainFamily.CRAYPE) = false from beq_eq_false_iff_ne.mpr htc]
  simp only [Bool.false_eq_true, if_false]
  rw [hv, hm]

theorem scorePCompMpiOpts_mpiErr (env : ScorePEnv) (htc : env.tcFam ≠ .CRAYPE) (v : String)
    (hv : compOptsTable (scorePNvhpcValue env) env.compFam = some v) (e : String)
    (hm : scorePMpiOptList env = .error e) :
    scorePCompMpiOpts env = .error e := by
  unfold scorePCompMpiOpts
  rw [show (env.tcFam == ToolchainFamily.CRAYPE) = false from beq_eq_false_iff_ne.mpr htc]
  simp only [Bool.false_eq_true, if_false]
  rw [hv, hm]

theorem scorePConfigureStep_okOf (env : ScorePEnv)
    (hb : noPercent env.binutilsLibdir = true) (hp : noPercent env.papiLibdir = true)
    (cm : List String) (hcm : scorePCompMpiOpts env = .ok cm) :
    scorePConfigureStep env =
      .ok { regexSubs := scorePRegexSubs env, unsetVars := ["CPPFLAGS", "LDFLAGS", "LIBS"],
            configopts := cm ++ scorePExpectedDepOpts env } := by
  unfold scorePConfigureStep
  rw [hcm, scorePDepOpts_expected env hb hp]

theorem scorePConfigureStep_errOf (env : ScorePEnv) (e : String)
    (h : scorePCompMpiOpts env = .error e) :
    scorePConfigureStep env = .error e := by
  unfold scorePConfigureStep
  rw [h]

theorem mpiOptList_ok_inv (env : ScorePEnv) (ms : List String)
    (hm : scorePMpiOptList env = .ok ms) :
    ms = [] ∨ ∃ mf mv, env.mpiFam = some mf ∧ mpiOptsTable mf = some mv ∧
      ms = ["--with-mpi=" ++ mv] := by
  unfold scorePMpiOptList at hm
  cases hmf : env.mpiFam with
  | none =>
    rw [hmf] at hm
    left
    exact (Except.ok.inj hm).symm
  | some mf =>
    rw [hmf] at hm
    have hm2 : (match mpiOptsTable mf with
        | none => (Except.error "MPI family not supported yet" : Except String (List String))
        | some mv => Except.ok ["--with-mpi=" ++ mv]) = Except.ok ms := hm
    cases hmv : mpiOptsTable mf with
    | none => rw [hmv] at hm2; exact absurd hm2 (by simp)
    | some mv =>
      rw [hmv] at hm2
      right
      exact ⟨mf, mv, rfl, hmv, (Except.ok.inj hm2).symm⟩

theorem countPfx_cons_zero (pat c : String) (ms : List String)
    (hc : pfxOf pat.data c.data = false) (h : countPfx pat ms = 0) :
    countPfx pat (c :: ms) = 0 := by
  unfold countPfx at h ⊢
  simp [List.countP_cons, hc, h]

theorem countPfx_nocross_ms (env : ScorePEnv) (ms : List String)
    (hm : scorePMpiOptList env = .ok ms) :
    countPfx "--with-nocross-compiler-suite=" ms = 0 := by
  rcases mpiOptList_ok_inv env ms hm with h | ⟨mf, mv, _, _, h⟩
  · subst h; rfl
  · subst h
    refine countPfx_cons_zero _ _ _ ?_ rfl
    exact pfx_concat_false "--with-nocross-compiler-suite=" "--with-mpi=" mv (by decide)

theorem scorePConfigureStep_ok_regex (env : ScorePEnv) (res : ScorePConf)
    (hres : scorePConfigureStep env = .ok res) : res.regexSubs = scorePRegexSubs env := by
  unfold scorePConfigureStep at hres
  cases h1 : scorePCompMpiOpts env with
  | error e => rw [h1] at hres; cases hres
  | ok cm =>
    rw [h1] at hres
    have hres2 : (match scorePDepOpts env with
        | .error _ => (Except.error "ValueError: incomplete format" : Except String ScorePConf)
        | .ok dOpts =>
          .ok { regexSubs := scorePRegexSubs env, unsetVars := ["CPPFLAGS", "LDFLAGS", "LIBS"],
                configopts := cm ++ dOpts }) = .ok res := hres
    cases h2 : scorePDepOpts env with
    | error e => rw [h2] at hres2; cases hres2
    | ok d =>
      rw [h2] at hres2
      rw [← Except.ok.inj hres2]

theorem versionLt_zero (v : List Nat) (h : v ≠ []) : versionLt v [0] = false := by
  cases v with
  | nil => exact absurd rfl h
  | cons a as =>
    cases as with
    | nil => simp [versionLt]
    | cons b bs => simp [versionLt]

/-- The fixed compiler-family table that claim C1 asserts (spec side, for
comparison with the code): it maps `NVHPC` to `'nvhpc'` unconditionally. -/
def specC1CompTable : CompilerFamily → Option String
  | .SYSTEM => some "gcc"
  | .GCC => some "gcc"
  | .IBMCOMP => some "ibm"
  | .INTELCOMP => some "intel"
  | .NVHPC => some "nvhpc"
  | .PGI => some "pgi"
  | .CLANG => none
  | .FUJITSU => none

/-- Concrete input refuting C1 as stated: Score-P 7.0 with the NVHPC compiler
family on a non-Cray toolchain. -/
def c1CexEnv : ScorePEnv :=
  { name := "Score-P", version := [7, 0], tcFam := .GCCFAM, compFam := .NVHPC,
    mpiFam := none, startDir := "/b", binutilsLibdir := "lib", papiLibdir := "lib", roots := [] }

/-- C1 (counterexample): for Score-P 7.0 with compiler family NVHPC (toolchain
family not CRAYPE), the code appends `--with-nocross-compiler-suite=pgi`,
whereas the fixed table of the claim maps NVHPC to `nvhpc`; so the option value
is not given by that fixed table. -/
theorem C1_fixed_table_counterexample :
    specC1CompTable CompilerFamily.NVHPC = some "nvhpc" ∧
    c1CexEnv.tcFam ≠ ToolchainFamily.CRAYPE ∧
    scorePConfigureStep c1CexEnv =
      .ok { regexSubs := [], unsetVars := ["CPPFLAGS", "LDFLAGS", "LIBS"],
            configopts := ["--with-nocross-compiler-suite=pgi"] } ∧
    ("--with-nocross-compiler-suite=pgi" : String) ≠ "--with-nocross-compiler-suite=nvhpc" :=
  ⟨rfl, by decide, rfl, by decide⟩

/-- C1 (amended): for a non-CRAYPE toolchain family, `configure_step` appends
exactly one `--with-nocross-compiler-suite=<v>` option, where `<v>` is given by
the table `{SYSTEM: gcc, GCC: gcc, IBMCOMP: ibm, INTELCOMP: intel,
NVHPC: nvhpc-or-pgi (pgi exactly when the version is below the package's
nvhpc_since threshold), PGI: pgi}`, and raises `EasyBuildError` for any
compiler family outside that table; for a CRAYPE toolchain family neither a
compiler-suite option nor an MPI option is added. -/
theorem C1_compiler_suite_option (env : ScorePEnv)
    (hb : noPercent env.binutilsLibdir = true) (hp : noPercent env.papiLibdir = true) :
    (env.tcFam ≠ ToolchainFamily.CRAYPE →
      (∀ v, compOptsTable (scorePNvhpcValue env) env.compFam = some v →
        ∀ res, scorePConfigureStep env = .ok res →
          res.configopts.head? = some ("--with-nocross-compiler-suite=" ++ v) ∧
          countPfx "--with-nocross-compiler-suite=" res.configopts = 1) ∧
      (compOptsTable (scorePNvhpcValue env) env.compFam = none →
        scorePConfigureStep env = .error "Compiler family not supported yet")) ∧
    (env.tcFam = ToolchainFamily.CRAYPE →
      ∀ res, scorePConfigureStep env = .ok res →
        countPfx "--with-nocross-compiler-suite=" res.configopts = 0 ∧
        countPfx "--with-mpi=" res.configopts = 0) := by
  refine ⟨fun htc => ⟨?_, ?_⟩, ?_⟩
  · intro v hv res hres
    cases hm : scorePMpiOptList env with
    | error e =>
      rw [scorePConfigureStep_errOf env e (scorePCompMpiOpts_mpiErr env htc v hv e hm)] at hres
      cases hres
    | ok ms =>
      rw [scorePConfigureStep_okOf env hb hp _ (scorePCompMpiOpts_some env htc v hv ms hm)] at hres
      rw [← Except.ok.inj hres]
      constructor
      · simp
      · rw [countPfx_append, countPfx_deps_nocross env]
        have h0 := countPfx_nocross_ms env ms hm
        unfold countPfx at h0 ⊢
        simp only [List.countP_cons]
        rw [pfx_self_concat "--with-nocross-compiler-suite=" v, h0]
        simp
  · intro hv
    exact scorePConfigureStep_errOf env _ (scorePCompMpiOpts_compErr env htc hv)
  · intro htc res hres
    rw [scorePConfigureStep_okOf env hb hp [] (scorePCompMpiOpts_cray env htc)] at hres
    rw [← Except.ok.inj hres]
    constructor
    · simpa using countPfx_deps_nocross env
    · simpa using countPfx_deps_mpi env

/-- Environment for the C1 witness: Score-P 9.0, GCC, Open MPI, no deps. -/
def c1WitEnv : ScorePEnv :=
  { name := "Score-P", version := [9, 0], tcFam := .GCCFAM, compFam := .GCC,
    mpiFam := some .OPENMPI, startDir := "/b", binutilsLibdir := "lib", papiLibdir := "lib",
    roots := [] }

/-- The configure outcome for `c1WitEnv`. -/
def c1WitRes : ScorePConf :=
  { regexSubs := [], unsetVars := ["CPPFLAGS", "LDFLAGS", "LIBS"],
    configopts := ["--with-nocross-compiler-suite=gcc", "--with-mpi=openmpi"] }

theorem C1_compiler_suite_option_witness :
    c1WitRes.configopts.head? = some ("--with-nocross-compiler-suite=" ++ "gcc") ∧
    countPfx "--with-nocross-compiler-suite=" c1WitRes.configopts = 1 :=
  ((C1_compiler_suite_option c1WitEnv (by decide) (by decide)).1 (by decide)).1
    "gcc" (by decide) c1WitRes (by rfl)

/-- C3: in a non-CRAYPE configure run, no `--with-mpi` option is appended when
`mpi_family()` is `None`; exactly the option `--with-mpi=<mapped>` is appended
for a family in the table `{INTELMPI: intel2, OPENMPI: openmpi, MPICH: mpich3,
MPICH2: mpich2, MVAPICH2: mpich3}`; and `EasyBuildError` is raised for any
other non-None MPI family. -/
theorem C3_mpi_option (env : ScorePEnv)
    (hb : noPercent env.binutilsLibdir = true) (hp : noPercent env.papiLibdir = true)
    (htc : env.tcFam ≠ ToolchainFamily.CRAYPE) :
    (env.mpiFam = none → ∀ res, scorePConfigureStep env = .ok res →
      countPfx "--with-mpi=" res.configopts = 0) ∧
    (∀ mf mv, env.mpiFam = some mf → mpiOptsTable mf = some mv →
      ∀ res, scorePConfigureStep env = .ok res →
        countPfx "--with-mpi=" res.configopts = 1 ∧
        "--with-mpi=" ++ mv ∈ res.configopts) ∧
    (∀ mf, env.mpiFam = some mf → mpiOptsTable mf = none →
      (scorePConfigureStep env).isOk = false) ∧
    (mpiOptsTable .INTELMPI = some "intel2" ∧ mpiOptsTable .OPENMPI = some "openmpi" ∧
      mpiOptsTable .MPICH = some "mpich3" ∧ mpiOptsTable .MPICH2 = some "mpich2" ∧
      mpiOptsTable .MVAPICH2 = some "mpich3") := by
  refine ⟨?_, ?_, ?_, by decide⟩
  · intro hmf res hres
    have hm : scorePMpiOptList env = .ok [] := by
      unfold scorePMpiOptList
      rw [hmf]
    cases hv : compOptsTable (scorePNvhpcValue env) env.compFam with
    | none =>
      rw [scorePConfigureStep_errOf env _ (scorePCompMpiOpts_compErr env htc hv)] at hres
      cases hres
    | some v =>
      rw [scorePConfigureStep_okOf env hb hp _ (scorePCompMpiOpts_some env htc v hv [] hm)] at hres
      rw [← Except.ok.inj hres]
      show countPfx "--with-mpi=" ((("--with-nocross-compiler-suite=" ++ v) :: []) ++
        scorePExpectedDepOpts env) = 0
      rw [countPfx_append, countPfx_deps_mpi env]
      have h1 := countPfx_cons_zero "--with-mpi=" ("--with-nocross-compiler-suite=" ++ v) []
        (pfx_concat_false "--with-mpi=" "--with-nocross-compiler-suite=" v (by decide)) rfl
      simpa using h1
  · intro mf mv hmf hmv res hres
    have hm : scorePMpiOptList env = .ok ["--with-mpi=" ++ mv] := by
      unfold scorePMpiOptList
      rw [hmf]
      show (match mpiOptsTable mf with
        | none => (Except.error "MPI family not supported yet" : Except String (List String))
        | some mv => Except.ok ["--with-mpi=" ++ mv]) = _
      rw [hmv]
    cases hv : compOptsTable (scorePNvhpcValue env) env.compFam with
    | none =>
      rw [scorePConfigureStep_errOf env _ (scorePCompMpiOpts_compErr env htc hv)] at hres
      cases hres
    | some v =>
      rw [scorePConfigureStep_okOf env hb hp _ (scorePCompMpiOpts_some env htc v hv _ hm)] at hres
      rw [← Except.ok.inj hres]
      constructor
      · rw [countPfx_append, countPfx_deps_mpi env]
        unfold countPfx
        simp only [List.countP_cons, List.countP_nil]
        rw [pfx_concat_false "--with-mpi=" "--with-nocross-compiler-suite=" v (by decide),
          pfx_self_concat "--with-mpi=" mv]
        simp
      · simp
  · intro mf hmf hmv
    have hm : scorePMpiOptList env = .error "MPI family not supported yet" := by
      unfold scorePMpiOptList
      rw [hmf]
      show (match mpiOptsTable mf with
        | none => (Except.error "MPI family not supported yet" : Except String (List String))
        | some mv => Except.ok ["--with-mpi=" ++ mv]) = _
      rw [hmv]
    cases hv : compOptsTable (scorePNvhpcValue env) env.compFam with
    | none => rw [scorePConfigureStep_errOf env _ (scorePCompMpiOpts_compErr env htc hv)]; rfl
    | some v => rw [scorePConfigureStep_errOf env _ (scorePCompMpiOpts_mpiErr env htc v hv _ hm)]; rfl

/-- Environment for the C3 witness: OTF2 3.0.2, Intel compiler, Intel MPI. -/
def c3WitEnv : ScorePEnv :=
  { name := "OTF2", version := [3, 0, 2], tcFam := .GCCFAM, compFam := .INTELCOMP,
    mpiFam := some .INTELMPI, startDir := "/b", binutilsLibdir := "lib", papiLibdir := "lib",
    roots := [] }

/-- The configure outcome for `c3WitEnv`. -/
def c3WitRes : ScorePConf :=
  { regexSubs := [], unsetVars := ["CPPFLAGS", "LDFLAGS", "LIBS"],
    configopts := ["--with-nocross-compiler-suite=intel", "--with-mpi=intel2"] }

theorem C3_mpi_option_witness :
    countPfx "--with-mpi=" c3WitRes.configopts = 1 ∧
    "--with-mpi=" ++ "intel2" ∈ c3WitRes.configopts :=
  (C3_mpi_option c3WitEnv (by decide) (by decide) (by decide)).2.1 .INTELMPI "intel2"
    rfl rfl c3WitRes (by rfl)

/-- C8: the NVHPC compiler family maps to `pgi` instead of `nvhpc` exactly when
the version is below the per-package `nvhpc_since` threshold (8.0 for Score-P,
2.6.1 for Scalasca, 3.0.2 for OTF2, 4.8 for CubeWriter/CubeLib/CubeGUI, default
`'0'`, so packages outside the table always get `nvhpc`); and the yes/no regex
substitutions are applied to the three configure scripts (`build-backend`,
`build-mpi`, `build-shmem`) exactly when `8.0 <= version < 8.5`. -/
theorem C8_version_branches (env : ScorePEnv) :
    (scorePNvhpcValue env = "pgi" ↔ versionLt env.version (nvhpcSince env.name) = true) ∧
    (nvhpcSince "Score-P" = [8, 0] ∧ nvhpcSince "Scalasca" = [2, 6, 1] ∧
      nvhpcSince "OTF2" = [3, 0, 2] ∧ nvhpcSince "CubeWriter" = [4, 8] ∧
      nvhpcSince "CubeLib" = [4, 8] ∧ nvhpcSince "CubeGUI" = [4, 8]) ∧
    (env.name ∉ (["Score-P", "Scalasca", "OTF2", "CubeWriter", "CubeLib", "CubeGUI"] :
        List String) →
      env.version ≠ [] → scorePNvhpcValue env = "nvhpc") ∧
    compOptsTable (scorePNvhpcValue env) CompilerFamily.NVHPC = some (scorePNvhpcValue env) ∧
    ((versionLe [8, 0] env.version && versionLt env.version [8, 5]) = true →
      scorePRegexSubs env =
        [(env.startDir ++ "/build-backend/configure", yesNoRegex),
         (env.startDir ++ "/build-mpi/configure", yesNoRegex),
         (env.startDir ++ "/build-shmem/configure", yesNoRegex)]) ∧
    ((versionLe [8, 0] env.version && versionLt env.version [8, 5]) = false →
      scorePRegexSubs env = []) ∧
    (∀ res, scorePConfigureStep env = .ok res → res.regexSubs = scorePRegexSubs env) := by
  refine ⟨?_, by decide, ?_, rfl, ?_, ?_, scorePConfigureStep_ok_regex env⟩
  · unfold scorePNvhpcValue
    cases hvl : versionLt env.version (nvhpcSince env.name)
    · simp only [hvl, Bool.false_eq_true, if_false]
      constructor
      · intro h; exact absurd h (by decide)
      · intro h; cases h
    · simp [hvl]
  · intro hnot hne
    have e1 : (env.name == "Score-P") = false :=
      beq_eq_false_iff_ne.mpr (fun h => hnot (by simp [h]))
    have e2 : (env.name == "Scalasca") = false :=
      beq_eq_false_iff_ne.mpr (fun h => hnot (by simp [h]))
    have e3 : (env.name == "OTF2") = false :=
      beq_eq_false_iff_ne.mpr (fun h => hnot (by simp [h]))
    have e4 : (env.name == "CubeWriter") = false :=
      beq_eq_false_iff_ne.mpr (fun h => hnot (by simp [h]))
    have e5 : (env.name == "CubeLib") = false :=
      beq_eq_false_iff_ne.mpr (fun h => hnot (by simp [h]))
    have e6 : (env.name == "CubeGUI") = false :=
      beq_eq_false_iff_ne.mpr (fun h => hnot (by simp [h]))
    unfold scorePNvhpcValue nvhpcSince
    rw [e1, e2, e3, e4, e5, e6]
    simp only [Bool.false_eq_true, if_false]
    rw [versionLt_zero env.version hne]
    rfl
  · intro h
    unfold scorePRegexSubs
    rw [h]
    rfl
  · intro h
    unfold scorePRegexSubs
    rw [h]
    rfl

/-- Environment for the C8 witness: a package outside the `nvhpc_since` table. -/
def c8WitEnv : ScorePEnv :=
  { name := "Extrae", version := [1, 0], tcFam := .GCCFAM, compFam := .NVHPC,
    mpiFam := none, startDir := "/b", binutilsLibdir := "lib", papiLibdir := "lib", roots := [] }

theorem C8_version_branches_witness : scorePNvhpcValue c8WitEnv = "nvhpc" :=
  (C8_version_branches c8WitEnv).2.2.1 (by decide) (by decide)

/-- C10: the dependency loop of `configure_step` never raises on option strings
without a format specifier: for every dependency of the `deps` table whose
software root is available, options containing `%s` are appended with the root
substituted and options without one (`--enable-cuda`) are appended verbatim
(the `TypeError` is caught); dependencies whose root is not available
contribute no options. -/
theorem C10_dep_options (env : ScorePEnv)
    (hb : noPercent env.binutilsLibdir = true) (hp : noPercent env.papiLibdir = true) :
    scorePDepOpts env = .ok (scorePExpectedDepOpts env) :=
  scorePDepOpts_expected env hb hp

/-- Environment for the C10 witness: CUDA and binutils present, others absent. -/
def c10WitEnv : ScorePEnv :=
  { name := "Score-P", version := [8, 0], tcFam := .GCCFAM, compFam := .GCC,
    mpiFam := none, startDir := "/b", binutilsLibdir := "lib64", papiLibdir := "lib",
    roots := [("CUDA", "/sw/cuda"), ("binutils", "/sw/binutils")] }

theorem C10_dep_options_witness :
    noPercent c10WitEnv.binutilsLibdir = true ∧ noPercent c10WitEnv.papiLibdir = true ∧
    scorePDepOpts c10WitEnv = .ok (scorePExpectedDepOpts c10WitEnv) :=
  ⟨by decide, by decide, C10_dep_options c10WitEnv (by decide) (by decide)⟩

/-! ## libsmm (`src/easybuild/easyblocks/l/libsmm.py`, class `EB_libsmm`) -/

/-- Observable build/install actions of the libsmm easyblock. -/
inductive BuildAction
  | writeFile (name content : String)
  | runCmd (cmd : String)
  | copyDir (src dst : String)
deriving DecidableEq, Repr

/-- The framework-provided inputs that `EB_libsmm.build_step` reads: compiler
family, the `F90`/`LIBBLAS`/`LDFLAGS` environment variables, the GCC version
(`get_software_version('GCC')`, parsed), and the easyconfig parameters
`transpose_flavour`, `max_tiny_dim`, `dims` and `parallel`. -/
structure LibsmmEnv where
  compFam : CompilerFamily
  envF90 : Option String
  gccVersion : List Nat
  envLIBBLAS : Option String
  envLDFLAGS : Option String
  transposeFlavour : Int
  maxTinyDim : Int
  dims : List Int
  parallel : Int
deriving DecidableEq, Repr

/-- The `cfgdict` of `build_step` (libsmm.py:169-178), one field per template key. -/
structure LibsmmCfg where
  datatype : Int
  transposeflavour : Int
  targetcompile : String
  hostcompile : String
  dims : String
  tiny_dims : String
  tasks : Int
  LIBBLAS : String
deriving DecidableEq, Repr

/-- `cfg_tpl` (libsmm.py:84-147), split at its `%(...)s` substitution points;
the pieces concatenate, in order, to the exact template text. -/
def libsmmTpl1 : String := "# This config file was generated by EasyBuild\n\n# the build script can generate optimized routines packed in a library for\n# 1) 'nn' => C=C+MATMUL(A,B)\n# 2) 'tn' => C=C+MATMUL(TRANSPOSE(A),B)\n# 3) 'nt' => C=C+MATMUL(A,TRANSPOSE(B))\n# 4) 'tt' => C=C+MATMUL(TRANPOSE(A),TRANPOSE(B))\n#\n# select a tranpose_flavor from the list 1 2 3 4\n#\ntranspose_flavor="

/-- Template text between `transpose_flavor` and `data_type`. -/
def libsmmTpl2 : String := "\n\n# 1) d => double precision real\n# 2) s => single precision real\n# 3) z => double precision complex\n# 4) c => single precision complex\n#\n# select a data_type from the list 1 2 3 4\n#\ndata_type="

/-- Template text between `data_type` and `target_compile`. -/
def libsmmTpl3 : String := "\n\n# target compiler... this are the options used for building the library.\n# They should be aggessive enough to e.g. perform vectorization for the specific CPU\n# (e.g. -ftree-vectorize -march=native),\n# and allow some flexibility in reordering floating point expressions (-ffast-math).\n# Higher level optimisation (in particular loop nest optimization) should not be used.\n#\ntarget_compile=\""

/-- Template text between `target_compile` and `blas_linking`. -/
def libsmmTpl4 : String := "\"\n\n# target dgemm link options... these are the options needed to link blas (e.g. -lblas)\n# blas is used as a fall back option for sizes not included in the library or in those cases where it is faster\n# the same blas library should thus also be used when libsmm is linked.\n#\nOMP_NUM_THREADS=1\nblas_linking=\""

/-- Template text between `blas_linking` and `dims_small`. -/
def libsmmTpl5 : String := "\"\n\n# matrix dimensions for which optimized routines will be generated.\n# since all combinations of M,N,K are being generated the size of the library becomes very large\n# if too many sizes are being optimized for. Numbers have to be ascending.\n#\ndims_small=\""

/-- Template text between `dims_small` and `dims_tiny`. -/
def libsmmTpl6 : String := "\"\n\n# tiny dimensions are used as primitves and generated in an 'exhaustive' search.\n# They should be a sequence from 1 to N,\n# where N is a number that is large enough to have good cache performance\n# (e.g. for modern SSE cpus 8 to 12)\n# Too large (>12?) is not beneficial, but increases the time needed to build the library\n# Too small (<8)   will lead to a slow library, but the build might proceed quickly\n# The minimum number for a successful build is 4\n#\ndims_tiny=\""

/-- Template text between `dims_tiny` and `host_compile`. -/
def libsmmTpl7 : String := "\"\n\n# host compiler... this is used only to compile a few tools needed to build the library.\n# The library itself is not compiled this way.\n# This compiler needs to be able to deal with some Fortran2003 constructs.\n#\nhost_compile=\""

/-- Template text between `host_compile` (note the trailing space inside the
quotes, as in the source) and `tasks`. -/
def libsmmTpl8 : String := "\" \n\n# number of processes to use in parallel for compiling / building and benchmarking the library.\n# Should *not* be more than the physical (available) number of cores of the machine\n#\ntasks="

/-- Trailing template text after `tasks` (a blank line and the indentation of
the closing triple quote). -/
def libsmmTpl9 : String := "\n\n        "

/-- `cfg_tpl % cfgdict` (libsmm.py:186): the template with each `%(key)s`
replaced by the corresponding `cfgdict` entry (integers rendered by `str`). -/
def libsmmCfgContent (d : LibsmmCfg) : String :=
  libsmmTpl1 ++ toString d.transposeflavour ++ libsmmTpl2 ++ toString d.datatype ++
  libsmmTpl3 ++ d.targetcompile ++ libsmmTpl4 ++ d.LIBBLAS ++ libsmmTpl5 ++ d.dims ++
  libsmmTpl6 ++ d.tiny_dims ++ libsmmTpl7 ++ d.hostcompile ++ libsmmTpl8 ++
  toString d.tasks ++ libsmmTpl9

/-- The fixed optimisation options (libsmm.py:154). -/
def libsmmOpts : String :=
  "-O2 -funroll-loops -ffast-math -ftree-vectorize -march=native -fno-inline-functions"

/-- `hostcompile = os.getenv('F90')` (libsmm.py:151); `None` renders as `"None"`
when `%s`-formatted. -/
def libsmmHostcompile (env : LibsmmEnv) : String := pyStr env.envF90

/-- `extra` (libsmm.py:157-160): `-flto` exactly for GCC >= 4.6. -/
def libsmmExtra (env : LibsmmEnv) : String :=
  if versionLe [4, 6] env.gccVersion then "-flto" else ""

/-- `targetcompile = "%s %s %s" % (hostcompile, opts, extra)` (libsmm.py:162). -/
def libsmmTargetcompile (env : LibsmmEnv) : String :=
  libsmmHostcompile env ++ " " ++ libsmmOpts ++ " " ++ libsmmExtra env

/-- The `cfgdict` (libsmm.py:169-178) with the loop's `datatype` plugged in. -/
def libsmmCfgDict (env : LibsmmEnv) (dt : Int) : LibsmmCfg :=
  { datatype := dt,
    transposeflavour := env.transposeFlavour,
    targetcompile := libsmmTargetcompile env,
    hostcompile := libsmmHostcompile env,
    dims := spaceJoin (env.dims.map toString),
    tiny_dims := spaceJoin ((pyRangeInt 1 (env.maxTinyDim + 1)).map toString),
    tasks := env.parallel,
    LIBBLAS := pyStr env.envLDFLAGS ++ " " ++ pyStr env.envLIBBLAS }

/-- `EB_libsmm.build_step` (libsmm.py:74-196): raises for a non-GCC compiler
family; then raises when `LIBBLAS` is unset or empty; otherwise iterates over
the datatypes `[(1, 'double precision real'), (3, 'double precision complex')]`,
writing `config.in` and running `./do_clean` then `./do_all` for each. -/
def libsmmBuildStep (env : LibsmmEnv) : Except String (List BuildAction) :=
  if env.compFam == CompilerFamily.GCC then
    if optTruthy env.envLIBBLAS = false then
      .error "No BLAS library specifications found (LIBBLAS not set)!"
    else
      .ok [.writeFile "config.in" (libsmmCfgContent (libsmmCfgDict env 1)),
           .runCmd "./do_clean", .runCmd "./do_all",
           .writeFile "config.in" (libsmmCfgContent (libsmmCfgDict env 3)),
           .runCmd "./do_clean", .runCmd "./do_all"]
  else .error "No supported compiler found (tried GCC)"

/-- `EB_libsmm.install_step` (libsmm.py:198-202). -/
def libsmmInstallStep (installdir : String) : List BuildAction :=
  [.runCmd "./do_clean", .copyDir "lib" (installdir ++ "/lib")]

theorem pfxOf_append_of_pfx : ∀ (p b : List Char), pfxOf p b = true →
    ∀ t, pfxOf p (b ++ t) = true := by
  intro p
  induction p with
  | nil => intro b _ t; rfl
  | cons c cs ih =>
    intro b h t
    cases b with
    | nil => simp [pfxOf] at h
    | cons d ds =>
      simp only [pfxOf, Bool.and_eq_true] at h
      rw [List.cons_append]
      show (c == d && pfxOf cs (ds ++ t)) = true
      rw [h.1, ih ds h.2 t]
      rfl

theorem strEnds_concat_false (a k pat : String)
    (h : clash pat.data.reverse k.data.reverse = true) :
    strEnds (a ++ k) pat = false := by
  unfold strEnds sfxOf
  rw [String.data_append, List.reverse_append]
  exact pfxOf_append_of_clash _ _ h _

theorem strEnds_concat_true (a k pat : String)
    (h : pfxOf pat.data.reverse k.data.reverse = true) :
    strEnds (a ++ k) pat = true := by
  unfold strEnds sfxOf
  rw [String.data_append, List.reverse_append]
  exact pfxOf_append_of_pfx _ _ h _

/-- C4: libsmm's `build_step` raises `EasyBuildError` whenever the toolchain
compiler family is not GCC, and (with GCC) raises whenever `LIBBLAS` is unset
or empty; only with GCC and a set `LIBBLAS` does it proceed to write the
config file and run the build commands. -/
theorem C4_libsmm_guards (env : LibsmmEnv) :
    (env.compFam ≠ CompilerFamily.GCC →
      libsmmBuildStep env = .error "No supported compiler found (tried GCC)") ∧
    (env.compFam = CompilerFamily.GCC → optTruthy env.envLIBBLAS = false →
      libsmmBuildStep env = .error "No BLAS library specifications found (LIBBLAS not set)!") ∧
    (env.compFam = CompilerFamily.GCC → optTruthy env.envLIBBLAS = true →
      (libsmmBuildStep env).isOk = true) := by
  refine ⟨?_, ?_, ?_⟩
  · intro h
    unfold libsmmBuildStep
    rw [show (env.compFam == CompilerFamily.GCC) = false from beq_eq_false_iff_ne.mpr h]
    rfl
  · intro hc hl
    unfold libsmmBuildStep
    rw [show (env.compFam == CompilerFamily.GCC) = true from by simp [hc]]
    rw [hl]
    rfl
  · intro hc hl
    unfold libsmmBuildStep
    rw [show (env.compFam == CompilerFamily.GCC) = true from by simp [hc]]
    rw [hl]
    rfl

/-- Environment for the C4 witness: an Intel compiler toolchain. -/
def c4WitEnv : LibsmmEnv :=
  { compFam := .INTELCOMP, envF90 := some "ifort", gccVersion := [4, 8],
    envLIBBLAS := some "-lblas", envLDFLAGS := none, transposeFlavour := 1,
    maxTinyDim := 12, dims := [1, 4, 5], parallel := 4 }

theorem C4_libsmm_guards_witness :
    libsmmBuildStep c4WitEnv = .error "No supported compiler found (tried GCC)" :=
  (C4_libsmm_guards c4WitEnv).1 (by decide)

/-- C5: with GCC and `LIBBLAS` set, `build_step` writes `config.in` exactly
twice, first with `data_type=1` then with `data_type=3`, running `./do_clean`
then `./do_all` after each write; in every written file `dims_small` is the
space-joined decimal rendering of the configured `dims` list in order,
`dims_tiny` is the space-joined sequence `1 2 ... max_tiny_dim` (empty when
`max_tiny_dim < 1`), and `target_compile` ends in ` -flto` exactly when the
GCC version is at least 4.6. -/
theorem C5_libsmm_build (env : LibsmmEnv)
    (hc : env.compFam = CompilerFamily.GCC) (hl : optTruthy env.envLIBBLAS = true) :
    libsmmBuildStep env = .ok
      [.writeFile "config.in" (libsmmCfgContent (libsmmCfgDict env 1)),
       .runCmd "./do_clean", .runCmd "./do_all",
       .writeFile "config.in" (libsmmCfgContent (libsmmCfgDict env 3)),
       .runCmd "./do_clean", .runCmd "./do_all"] ∧
    (∀ dt : Int, (libsmmCfgDict env dt).datatype = dt) ∧
    (∀ dt : Int, (libsmmCfgDict env dt).dims = spaceJoin (env.dims.map toString)) ∧
    (∀ n : Nat, env.maxTinyDim = (n : Int) →
      (libsmmCfgDict env 1).tiny_dims =
        spaceJoin ((List.range n).map (fun k => toString (k + 1)))) ∧
    (env.maxTinyDim < 1 → (libsmmCfgDict env 1).tiny_dims = "") ∧
    (strEnds (libsmmCfgDict env 1).targetcompile " -flto" = versionLe [4, 6] env.gccVersion) := by
  refine ⟨?_, fun dt => rfl, fun dt => rfl, ?_, ?_, ?_⟩
  · unfold libsmmBuildStep
    rw [show (env.compFam == CompilerFamily.GCC) = true from by simp [hc]]
    rw [hl]
    rfl
  · intro n hn
    show spaceJoin ((pyRangeInt 1 (env.maxTinyDim + 1)).map toString) = _
    rw [hn]
    congr 1
    unfold pyRangeInt
    have ht : (((n : Int)) + 1 - 1).toNat = n := by omega
    rw [ht, List.map_map]
    apply List.map_congr_left
    intro x _
    show toString ((1 : Int) + Int.ofNat x) = toString (x + 1)
    have h2 : (1 : Int) + Int.ofNat x = Int.ofNat (x + 1) := by
      show Int.ofNat (1 + x) = Int.ofNat (x + 1)
      rw [Nat.add_comm]
    rw [h2]
    rfl
  · intro h
    show spaceJoin ((pyRangeInt 1 (env.maxTinyDim + 1)).map toString) = ""
    unfold pyRangeInt
    have ht : (env.maxTinyDim + 1 - 1).toNat = 0 := by omega
    rw [ht]
    rfl
  · show strEnds (libsmmTargetcompile env) " -flto" = versionLe [4, 6] env.gccVersion
    cases hv : versionLe [4, 6] env.gccVersion
    · have hT : libsmmTargetcompile env = libsmmHostcompile env ++
          " -O2 -funroll-loops -ffast-math -ftree-vectorize -march=native -fno-inline-functions " := by
        unfold libsmmTargetcompile libsmmExtra
        rw [hv]
        apply String.ext
        simp only [String.data_append, List.append_assoc]
        rfl
      rw [hT]
      exact strEnds_concat_false _ _ _ (by decide)
    · have hT : libsmmTargetcompile env = libsmmHostcompile env ++
          " -O2 -funroll-loops -ffast-math -ftree-vectorize -march=native -fno-inline-functions -flto" := by
        unfold libsmmTargetcompile libsmmExtra
        rw [hv]
        apply String.ext
        simp only [String.data_append, List.append_assoc]
        rfl
      rw [hT]
      exact strEnds_concat_true _ _ _ (by decide)

/-- Environment for the C5 witness: GCC 4.8.2, LIBBLAS set. -/
def c5WitEnv : LibsmmEnv :=
  { compFam := .GCC, envF90 := some "gfortran", gccVersion := [4, 8, 2],
    envLIBBLAS := some "-lopenblas", envLDFLAGS := some "-L/lib", transposeFlavour := 1,
    maxTinyDim := 2, dims := [1, 4], parallel := 3 }

theorem C5_libsmm_build_witness :
    strEnds (libsmmCfgDict c5WitEnv 1).targetcompile " -flto" =
      versionLe [4, 6] c5WitEnv.gccVersion :=
  (C5_libsmm_build c5WitEnv (by decide) (by decide)).2.2.2.2.2

/-! ## Paraver (`src/easybuild/easyblocks/p/paraver.py`, class `EB_Paraver`) -/

/-- `self.cfg['configopts']`: either the easyconfig string or the list that
`run_all_steps` installs for iterated installation of the old versions. -/
inductive COpts
  | str (s : String)
  | lst (l : List String)
deriving DecidableEq, Repr

/-- The framework-provided inputs that the Paraver easyblock reads: version,
the software roots of Boost / wxWidgets / wxPropertyGrid, the glob result for
the wxPropertyGrid library pattern, the installation directory and the initial
`configopts` value from the easyconfig. -/
structure ParaverEnv where
  version : List Nat
  boostRoot : Option String
  wxWidgetsRoot : Option String
  wxPropertyGridRoot : Option String
  propgridGlob : List String
  installdir : String
  configopts0 : String
deriving DecidableEq, Repr

/-- The state `run_all_steps` leaves behind: `self.components`,
`self.current_component` and `self.cfg['configopts']`. -/
structure ParaverState where
  components : Option (List String)
  currentComponent : Option Nat
  configopts : COpts
deriving DecidableEq, Repr

/-- The `paraver-kernel` configure options template (paraver.py:64). -/
def paraverKernelOpts : String :=
  "--with-boost=%(boost)s --with-ptools-common-files=%(installdir)s"

/-- The `wxparaver` configure options template (paraver.py:67-71),
space-joined in the source's order. -/
def paraverWxOpts : String :=
  spaceJoin ["--with-boost=%(boost)s", "--with-wxpropgrid=%(wxpropgrid)s",
    "--with-paraver=%(installdir)s"]

/-- `EB_Paraver.run_all_steps` (paraver.py:45-76): versions below 4.7 get the
three components, `current_component = 0` and the 3-element `configopts` list
(built by one assignment and three `update` calls); other versions get
`components = current_component = None` and an untouched `configopts`. -/
def paraverRunAllSteps (env : ParaverEnv) : ParaverState :=
  if versionLt env.version [4, 7] then
    { components := some ["ptools_common_files", "paraver-kernel", "wxparaver"],
      currentComponent := some 0,
      configopts := .lst ["", paraverKernelOpts, paraverWxOpts] }
  else
    { components := none, currentComponent := none, configopts := .str env.configopts0 }

/-- `os.path.basename`: the part after the last `/` (scanning left to right,
restarting at each separator). -/
def pyBasename (p : String) : String :=
  String.mk (p.data.foldl (fun acc c => if c == '/' then [] else acc ++ [c]) [])

/-- Python slicing `s[3:-3]` (paraver.py:103): drop the first three characters
and stop three before the end (empty for strings of length at most six). -/
def pySlice3m3 (s : String) : String :=
  String.mk ((s.data.drop 3).take (s.data.length - 6))

/-- The wxPropertyGrid part of `configure_step` (paraver.py:94-108): when the
dependency is present, exactly one glob match is required and the value is the
match's basename without the `lib` prefix and `.so` suffix; when absent, the
value stays `None`. -/
def paraverWxpropgrid (env : ParaverEnv) : Except String (Option String) :=
  if optTruthy env.wxPropertyGridRoot then
    match env.propgridGlob with
    | [p] => .ok (some (pySlice3m3 (pyBasename p)))
    | _ => .error "Expected to find exactly one library in the wxPropertyGrid libdir"
  else .ok none

/-- `wx_config` (paraver.py:87-90). -/
def paraverWxConfig (env : ParaverEnv) : Option String :=
  if optTruthy env.wxWidgetsRoot then some ((env.wxWidgetsRoot.getD "") ++ "/bin/wx-config")
  else none

/-- The component the current iteration works on
(`self.components[self.current_component]`, paraver.py:111). -/
def paraverCurComponent (st : ParaverState) : String :=
  (st.components.getD []).getD (st.currentComponent.getD 0) ""

/-- The `configopts` value the framework presents during the current iteration
of an iterated installation (the element of the list at `current_component`;
framework code, not under `src/`, modelled from the spec's description of
per-component configure invocations). -/
def paraverIterOpts (st : ParaverState) : String :=
  match st.configopts with
  | .str s => s
  | .lst l => l.getD (st.currentComponent.getD 0) ""

/-- `--with-wxpropgrid=<value>` is only added when a wxPropertyGrid library
name was determined (paraver.py:126-128). -/
def wxpgOptList : Option String → List String
  | some wp => ["--with-wxpropgrid=" ++ wp]
  | none => []

/-- Observable outcome of `EB_Paraver.configure_step`: the wxpropgrid value,
the `wx-config` path, the directory changed into (old versions), the template
string and substitution mapping applied to it (old versions, recorded rather
than expanded), and the options appended via `cfg.update` (new versions). -/
structure ParaverConfResult where
  wxpropgrid : Option String
  wxConfig : Option String
  changedDir : Option String
  iterConfigopts : Option (String × List (String × String))
  addedConfigopts : List String
deriving DecidableEq, Repr

/-- `EB_Paraver.configure_step` (paraver.py:78-130): Boost is required; for
versions at or above 4.7 wxWidgets is required; the wxPropertyGrid glob must be
unique when the dependency is present; then either the current component's
options are `%`-templated (versions below 4.7) or the boost/paraver/wx-config
(and possibly wxpropgrid) options are appended. -/
def paraverConfigureStep (env : ParaverEnv) (st : ParaverState) :
    Except String ParaverConfResult :=
  if !optTruthy env.boostRoot then
    .error "Boost is not available as a dependency"
  else if !optTruthy env.wxWidgetsRoot && versionLe [4, 7] env.version then
    .error "wxWidgets is not available as a dependency"
  else
    match paraverWxpropgrid env with
    | .error e => .error e
    | .ok wxpropgrid =>
      if versionLt env.version [4, 7] then
        .ok { wxpropgrid := wxpropgrid,
              wxConfig := paraverWxConfig env,
              changedDir := some (paraverCurComponent st),
              iterConfigopts := some (paraverIterOpts st,
                [("boost", env.boostRoot.getD ""), ("installdir", env.installdir),
                 ("wxpropgrid", pyStr wxpropgrid)]),
              addedConfigopts := [] }
      else
        .ok { wxpropgrid := wxpropgrid,
              wxConfig := paraverWxConfig env,
              changedDir := none,
              iterConfigopts := none,
              addedConfigopts :=
                ["--with-boost=" ++ env.boostRoot.getD "",
                 "--with-paraver=" ++ env.installdir,
                 "--with-wx-config=" ++ pyStr (paraverWxConfig env)] ++
                wxpgOptList wxpropgrid }

/-- `EB_Paraver.build_step` (paraver.py:132-136): `make` (the inherited
`ConfigureMake.build_step`, not under `src/`, modelled from the spec) only for
versions strictly below 4.7. -/
def paraverBuildStep (version : List Nat) : List String :=
  if versionLt version [4, 7] then ["make"] else []

theorem paraverWxpropgrid_absent (env : ParaverEnv)
    (h : optTruthy env.wxPropertyGridRoot = false) :
    paraverWxpropgrid env = .ok none := by
  unfold paraverWxpropgrid
  rw [h]
  rfl

theorem paraverWxpropgrid_one (env : ParaverEnv) (p : String)
    (h : optTruthy env.wxPropertyGridRoot = true) (hg : env.propgridGlob = [p]) :
    paraverWxpropgrid env = .ok (some (pySlice3m3 (pyBasename p))) := by
  unfold paraverWxpropgrid
  rw [h, hg]
  rfl

theorem paraverWxpropgrid_err (env : ParaverEnv)
    (h : optTruthy env.wxPropertyGridRoot = true) (hg : env.propgridGlob.length ≠ 1) :
    paraverWxpropgrid env =
      .error "Expected to find exactly one library in the wxPropertyGrid libdir" := by
  unfold paraverWxpropgrid
  rw [h]
  cases hgl : env.propgridGlob with
  | nil => rfl
  | cons p t =>
    cases t with
    | nil => exact absurd (by rw [hgl]; rfl : env.propgridGlob.length = 1) hg
    | cons q t2 => rfl

/-- C6: Paraver branches on version 4.7: below it, `run_all_steps` sets the
three components with `current_component = 0` and replaces `configopts` by the
3-element list (empty string, paraver-kernel options, wxparaver options, in
that order); at or above it, `components` is `None` and `configure_step`
raises `EasyBuildError` when wxWidgets is not available as a dependency. -/
theorem C6_paraver_version_branch (env : ParaverEnv) :
    (versionLt env.version [4, 7] = true →
      paraverRunAllSteps env =
        { components := some ["ptools_common_files", "paraver-kernel", "wxparaver"],
          currentComponent := some 0,
          configopts := .lst ["", paraverKernelOpts, paraverWxOpts] }) ∧
    (versionLt env.version [4, 7] = false →
      (paraverRunAllSteps env).components = none ∧
      (optTruthy env.wxWidgetsRoot = false →
        ∀ st, (paraverConfigureStep env st).isOk = false)) := by
  constructor
  · intro h
    unfold paraverRunAllSteps
    rw [h]
    rfl
  · intro h
    constructor
    · unfold paraverRunAllSteps
      rw [h]
      rfl
    · intro hwx st
      unfold paraverConfigureStep
      cases hb : optTruthy env.boostRoot
      · rfl
      · have hle : versionLe [4, 7] env.version = true := by
          unfold versionLe
          rw [h]
          rfl
        rw [hwx, hle]
        rfl

/-- Environment for the C6 witness: Paraver 4.7 without wxWidgets. -/
def c6WitEnv : ParaverEnv :=
  { version := [4, 7], boostRoot := some "/sw/boost", wxWidgetsRoot := none,
    wxPropertyGridRoot := none, propgridGlob := [], installdir := "/sw/paraver",
    configopts0 := "" }

theorem C6_paraver_version_branch_witness :
    (paraverConfigureStep c6WitEnv (paraverRunAllSteps c6WitEnv)).isOk = false :=
  ((C6_paraver_version_branch c6WitEnv).2 (by decide)).2 (by decide)
    (paraverRunAllSteps c6WitEnv)

theorem paraverConf_boostErr (env : ParaverEnv) (st : ParaverState)
    (hb : optTruthy env.boostRoot = false) :
    paraverConfigureStep env st = .error "Boost is not available as a dependency" := by
  unfold paraverConfigureStep
  rw [hb]
  rfl

theorem paraverConf_wxErr (env : ParaverEnv) (st : ParaverState)
    (hb : optTruthy env.boostRoot = true)
    (hwv : (!optTruthy env.wxWidgetsRoot && versionLe [4, 7] env.version) = true) :
    paraverConfigureStep env st = .error "wxWidgets is not available as a dependency" := by
  unfold paraverConfigureStep
  rw [hb, hwv]
  rfl

theorem paraverConf_pgErr (env : ParaverEnv) (st : ParaverState) (e : String)
    (hb : optTruthy env.boostRoot = true)
    (hwv : (!optTruthy env.wxWidgetsRoot && versionLe [4, 7] env.version) = false)
    (hw : paraverWxpropgrid env = .error e) :
    paraverConfigureStep env st = .error e := by
  unfold paraverConfigureStep
  simp only [hb, hwv, hw, Bool.not_true, Bool.false_eq_true, if_false]

theorem paraverConf_okOld (env : ParaverEnv) (st : ParaverState) (w : Option String)
    (hb : optTruthy env.boostRoot = true)
    (hwv : (!optTruthy env.wxWidgetsRoot && versionLe [4, 7] env.version) = false)
    (hw : paraverWxpropgrid env = .ok w) (hv : versionLt env.version [4, 7] = true) :
    paraverConfigureStep env st =
      .ok { wxpropgrid := w, wxConfig := paraverWxConfig env,
            changedDir := some (paraverCurComponent st),
            iterConfigopts := some (paraverIterOpts st,
              [("boost", env.boostRoot.getD ""), ("installdir", env.installdir),
               ("wxpropgrid", pyStr w)]),
            addedConfigopts := [] } := by
  unfold paraverConfigureStep
  simp only [hb, hwv, hw, hv, Bool.not_true, Bool.false_eq_true, if_false, if_true]

theorem paraverConf_okNew (env : ParaverEnv) (st : ParaverState) (w : Option String)
    (hb : optTruthy env.boostRoot = true)
    (hwv : (!optTruthy env.wxWidgetsRoot && versionLe [4, 7] env.version) = false)
    (hw : paraverWxpropgrid env = .ok w) (hv : versionLt env.version [4, 7] = false) :
    paraverConfigureStep env st =
      .ok { wxpropgrid := w, wxConfig := paraverWxConfig env,
            changedDir := none, iterConfigopts := none,
            addedConfigopts :=
              ["--with-boost=" ++ env.boostRoot.getD "",
               "--with-paraver=" ++ env.installdir,
               "--with-wx-config=" ++ pyStr (paraverWxConfig env)] ++
              wxpgOptList w } := by
  unfold paraverConfigureStep
  simp only [hb, hwv, hw, hv, Bool.not_true, Bool.false_eq_true, if_false, if_true]

/-- C9: in Paraver's `configure_step`, a present wxPropertyGrid dependency
requires the glob `libwxcode_*_propgrid-*.so` to match exactly one file (else
`EasyBuildError`); with exactly one match the `--with-wxpropgrid` value is that
file's basename with the first three (`lib`) and last three (`.so`) characters
removed; with wxPropertyGrid absent the value stays `None` and, for versions
at or above 4.7, no `--with-wxpropgrid` option is added. -/
theorem C9_wxpropgrid (env : ParaverEnv) (st : ParaverState) :
    (optTruthy env.wxPropertyGridRoot = true → env.propgridGlob.length ≠ 1 →
      (paraverConfigureStep env st).isOk = false) ∧
    (∀ p, optTruthy env.wxPropertyGridRoot = true → env.propgridGlob = [p] →
      ∀ res, paraverConfigureStep env st = .ok res →
        res.wxpropgrid = some (pySlice3m3 (pyBasename p))) ∧
    (optTruthy env.wxPropertyGridRoot = false →
      ∀ res, paraverConfigureStep env st = .ok res →
        res.wxpropgrid = none ∧
        (versionLt env.version [4, 7] = false →
          countPfx "--with-wxpropgrid=" res.addedConfigopts = 0)) := by
  refine ⟨?_, ?_, ?_⟩
  · intro hpg hlen
    cases hb : optTruthy env.boostRoot
    · rw [paraverConf_boostErr env st hb]
      rfl
    · cases hwv : (!optTruthy env.wxWidgetsRoot && versionLe [4, 7] env.version)
      · rw [paraverConf_pgErr env st _ hb hwv (paraverWxpropgrid_err env hpg hlen)]
        rfl
      · rw [paraverConf_wxErr env st hb hwv]
        rfl
  · intro p hpg hg res hres
    have hw := paraverWxpropgrid_one env p hpg hg
    cases hb : optTruthy env.boostRoot
    · rw [paraverConf_boostErr env st hb] at hres
      cases hres
    · cases hwv : (!optTruthy env.wxWidgetsRoot && versionLe [4, 7] env.version)
      · cases hv : versionLt env.version [4, 7]
        · rw [paraverConf_okNew env st _ hb hwv hw hv] at hres
          rw [← Except.ok.inj hres]
        · rw [paraverConf_okOld env st _ hb hwv hw hv] at hres
          rw [← Except.ok.inj hres]
      · rw [paraverConf_wxErr env st hb hwv] at hres
        cases hres
  · intro hpg res hres
    have hw := paraverWxpropgrid_absent env hpg
    cases hb : optTruthy env.boostRoot
    · rw [paraverConf_boostErr env st hb] at hres
      cases hres
    · cases hwv : (!optTruthy env.wxWidgetsRoot && versionLe [4, 7] env.version)
      · cases hv : versionLt env.version [4, 7]
        · rw [paraverConf_okNew env st _ hb hwv hw hv] at hres
          rw [← Except.ok.inj hres]
          refine ⟨rfl, fun _ => ?_⟩
          show countPfx "--with-wxpropgrid="
            (["--with-boost=" ++ env.boostRoot.getD "",
              "--with-paraver=" ++ env.installdir,
              "--with-wx-config=" ++ pyStr (paraverWxConfig env)] ++ []) = 0
          simp only [List.append_nil]
          refine countPfx_cons_zero _ _ _
              (pfx_concat_false _ "--with-boost=" _ (by decide)) ?_
          refine countPfx_cons_zero _ _ _
              (pfx_concat_false _ "--with-paraver=" _ (by decide)) ?_
          exact countPfx_cons_zero _ _ _
              (pfx_concat_false _ "--with-wx-config=" _ (by decide)) rfl
        · rw [paraverConf_okOld env st _ hb hwv hw hv] at hres
          rw [← Except.ok.inj hres]
          refine ⟨rfl, fun h47 => ?_⟩
          exact absurd h47 (by decide)
      · rw [paraverConf_wxErr env st hb hwv] at hres
        cases hres

/-- Environment for the C9 witness: wxPropertyGrid present with exactly one
matching library. -/
def c9WitEnv : ParaverEnv :=
  { version := [4, 8], boostRoot := some "/sw/boost", wxWidgetsRoot := some "/sw/wx",
    wxPropertyGridRoot := some "/sw/wxpg",
    propgridGlob := ["/sw/wxpg/lib/libwxcode_gtk2u_propgrid-2.8.so"],
    installdir := "/sw/paraver", configopts0 := "" }

/-- The configure outcome for `c9WitEnv`. -/
def c9WitRes : ParaverConfResult :=
  { wxpropgrid := some "wxcode_gtk2u_propgrid-2.8",
    wxConfig := some "/sw/wx/bin/wx-config",
    changedDir := none, iterConfigopts := none,
    addedConfigopts :=
      ["--with-boost=/sw/boost", "--with-paraver=/sw/paraver",
       "--with-wx-config=/sw/wx/bin/wx-config",
       "--with-wxpropgrid=wxcode_gtk2u_propgrid-2.8"] }

/-- A trivial framework state for the C9 witness. -/
def c9WitSt : ParaverState :=
  { components := none, currentComponent := none, configopts := .str "" }

theorem C9_wxpropgrid_witness :
    c9WitRes.wxpropgrid =
      some (pySlice3m3 (pyBasename "/sw/wxpg/lib/libwxcode_gtk2u_propgrid-2.8.so")) :=
  (C9_wxpropgrid c9WitEnv c9WitSt).2.1 "/sw/wxpg/lib/libwxcode_gtk2u_propgrid-2.8.so"
    (by decide) (by decide) c9WitRes (by rfl)

/-! ## TensorRT (`src/easybuild/easyblocks/t/tensorrt.py`, class `EB_TensorRT`)
and the cross-module claims -/

/-- What a `sanity_check_step` passes to the framework check: expected files,
expected directories and custom commands. -/
structure SanitySpec where
  files : List String
  dirs : List String
  commands : List String
deriving DecidableEq, Repr

/-- `EB_libsmm.sanity_check_step` (libsmm.py:204-212): the list comprehension
`["lib/libsmm_%s.a" % x for x in ["dnn", "znn"]]` and no dirs or commands. -/
def libsmmSanityCheck : SanitySpec :=
  { files := ["dnn", "znn"].map (fun x => "lib/libsmm_" ++ x ++ ".a"),
    dirs := [], commands := [] }

/-- `EB_Paraver.sanity_check_step` (paraver.py:158-164). -/
def paraverSanityCheck : SanitySpec :=
  { files := ["bin/wxparaver", "include/paraverconfig.h",
              "lib/paraver-kernel/libparaver-kernel.a"],
    dirs := [], commands := [] }

/-- `EB_TensorRT.sanity_check_step` (tensorrt.py:113-125): fixed files, the
Python library directory (`self.pylibdir`, provided by the PythonPackage base
class outside `src/`), and the command importing the `tensorrt` module. -/
def tensorrtSanityCheck (pylibdir pythonCmd : String) : SanitySpec :=
  { files := ["bin/trtexec", "lib/libnvinfer.a"],
    dirs := [pylibdir],
    commands := [pythonCmd ++ " -c 'import tensorrt'"] }

/-- C7: each custom `sanity_check_step` passes a fixed list of expected output
files: libsmm checks exactly `lib/libsmm_dnn.a` and `lib/libsmm_znn.a`;
Paraver checks `bin/wxparaver`, `include/paraverconfig.h` and
`lib/paraver-kernel/libparaver-kernel.a`; TensorRT checks `bin/trtexec` and
`lib/libnvinfer.a` plus the Python library directory and the command importing
the `tensorrt` module. -/
theorem C7_sanity_checks (pylibdir pythonCmd : String) :
    libsmmSanityCheck =
      { files := ["lib/libsmm_dnn.a", "lib/libsmm_znn.a"], dirs := [], commands := [] } ∧
    paraverSanityCheck =
      { files := ["bin/wxparaver", "include/paraverconfig.h",
                  "lib/paraver-kernel/libparaver-kernel.a"], dirs := [], commands := [] } ∧
    tensorrtSanityCheck pylibdir pythonCmd =
      { files := ["bin/trtexec", "lib/libnvinfer.a"], dirs := [pylibdir],
        commands := [pythonCmd ++ " -c 'import tensorrt'"] } :=
  ⟨rfl, rfl, rfl⟩

/-- The three lifecycle steps the claim concerns. -/
inductive LifecycleStep
  | configure | build | install
deriving DecidableEq, Repr

/-- Modelled from the spec: the host framework (not under `src/`) runs each
easyblock's steps in the order configure, build, install ("invoke
`configure && make && make install`"). -/
def frameworkStepOrder : List LifecycleStep := [.configure, .build, .install]

/-- `EB_TensorRT.configure_step` (tensorrt.py:69-71) is `pass`: no command. -/
def tensorrtConfigureCmds : List String := []

/-- `EB_TensorRT.build_step` (tensorrt.py:73-75) is `pass`: no command. -/
def tensorrtBuildCmds : List String := []

/-- C2 (counterexample): TensorRT's `build_step` runs no command at all, and
Paraver's `build_step` at version 4.7 runs none either; so the build step of
every module does not perform the make invocation. -/
theorem C2_make_counterexample :
    ("make" ∈ tensorrtBuildCmds → False) ∧ ("make" ∈ paraverBuildStep [4, 7] → False) :=
  ⟨by decide, by decide⟩

/-- C2 (amended): the framework runs the configure step, then the build step,
then the install step, in that order; but the build step does not always
invoke make: Paraver's `build_step` performs the make invocation exactly for
versions strictly below 4.7, and TensorRT's `configure_step` and `build_step`
perform no command at all. -/
theorem C2_step_order (v : List Nat) :
    frameworkStepOrder = [.configure, .build, .install] ∧
    paraverBuildStep v = (if versionLt v [4, 7] then ["make"] else []) ∧
    tensorrtBuildCmds = [] ∧ tensorrtConfigureCmds = [] :=
  ⟨rfl, rfl, rfl, rfl⟩
